import Mathlib

/-!
Storefront script `web/app.js`: cart store, page renderers, analytics events

A shallow embedding of `app.js`.  Every JavaScript function of the script is a
Lean function of the same name over an explicit `World` (local storage, the
parts of the document the script touches, the console log of analytics
events, the registered event listeners).

Modelling conventions

* A JavaScript number is a `Num`: a finite number with an integer value, a
  zero with a sign, an infinity or `NaN`.  Sums and products are rounded to the
  nearest double (`roundDouble`), as the script's arithmetic is.  Numbers with
  a fractional part are not represented.  A price is an `Int`: the script
  copies prices and never computes one.
* A number is printed with all its decimal digits, which is what the browser
  prints for an integer of magnitude below 2^53.
* A JavaScript object used as a string-to-string mapping (`variant`) is the
  list of its own properties in enumeration order.
* The text under the `cart` key of `localStorage` is kept by what `JSON.parse`
  makes of it: text that is not JSON, the text `null`, or the text of an array
  of line items (what `saveCart` writes).  Other JSON texts lie outside the
  data model of the cart and are not represented.
* A function that can throw returns an `Outcome`: the world at the point where
  control left the function, and the exception if one was thrown.
* `innerHTML` and `textContent` of an element are kept as the string the
  script assigned (the browser's re-serialisation of markup is not modelled).
* A closure handed to `addEventListener` is a `Listener` holding the variables
  it captured; `Listener.run` is the body of the closure.
-/

namespace GA4Shop

/-! ## Data model -/

/-- Exceptions raised by the platform operations the script relies on. -/
inductive JSError where
  | SyntaxError
  | TypeError
  deriving DecidableEq, Repr

/-! ## Numbers -/

/-- A value of a numeric variable or property of the script: a finite number
with an integer value, negative zero, an infinity, `NaN`, or `null` (what JSON
reads back for a number that was not finite when it was stored). -/
inductive Num where
  | int (value : Int)
  | negZero
  | infinity (negative : Bool)
  | nan
  | null
  deriving DecidableEq, Repr

/-- Models the conversion `ToNumber` on these values: `null` becomes 0. -/
def Num.toNumber : Num → Num
  | .null => .int 0
  | x => x

/-- The number of low bits of a magnitude that do not fit in the 53 bits of
the significand of a double; the first argument bounds the halvings. -/
def droppedBits : Nat → Nat → Nat
  | 0, _ => 0
  | fuel + 1, m => if m < 2 ^ 53 then 0 else droppedBits fuel (m / 2) + 1

/-- Rounds a magnitude below 2^1024 to 53 significant bits, ties to even. -/
def roundMagnitude (m : Nat) : Nat :=
  let e := droppedBits 1024 m
  let q := m / 2 ^ e
  let r := m % 2 ^ e
  let rounded := if 2 * r < 2 ^ e then q else if 2 ^ e < 2 * r then q + 1 else q + q % 2
  rounded * 2 ^ e

/-- The magnitude from which on an exact result is rounded to an infinity:
2^1024 - 2^970, half a step above the largest double. -/
def overflowMagnitude : Nat := (2 ^ 256) ^ 4 - (2 ^ 194) ^ 5

/-- The double nearest to an exact integer result (round to nearest, ties to
even): the integer itself below 2^53 in magnitude, an infinity from
2^1024 - 2^970 on. -/
def roundDouble (x : Int) : Num :=
  if overflowMagnitude ≤ x.natAbs then .infinity (decide (x < 0))
  else if x < 0 then .int (-(roundMagnitude x.natAbs : Int))
  else .int (roundMagnitude x.natAbs)

/-- Models IEEE 754 addition of two numbers (`null` is converted before). -/
def addNumbers : Num → Num → Num
  | .nan, _ | _, .nan | .null, _ | _, .null => .nan
  | .infinity s, .infinity t => if s = t then .infinity s else .nan
  | .infinity s, _ => .infinity s
  | _, .infinity t => .infinity t
  | .negZero, .negZero => .negZero
  | .negZero, .int y => .int y
  | .int x, .negZero => .int x
  | .int x, .int y => roundDouble (x + y)

/-- Models `a + b` on numeric operands. -/
def jsAdd (a b : Num) : Num := addNumbers a.toNumber b.toNumber

/-- Models IEEE 754 multiplication of two numbers (`null` is converted before). -/
def mulNumbers : Num → Num → Num
  | .nan, _ | _, .nan | .null, _ | _, .null => .nan
  | .infinity s, .infinity t => .infinity (s != t)
  | .infinity _, .negZero | .negZero, .infinity _ => .nan
  | .infinity s, .int y => if y = 0 then .nan else .infinity (s != decide (y < 0))
  | .int x, .infinity t => if x = 0 then .nan else .infinity (decide (x < 0) != t)
  | .negZero, .negZero => .int 0
  | .negZero, .int y => if y < 0 then .int 0 else .negZero
  | .int x, .negZero => if x < 0 then .int 0 else .negZero
  | .int x, .int y =>
    if x * y = 0 ∧ (x < 0 ∨ y < 0) then .negZero else roundDouble (x * y)

/-- Models `a * b` on numeric operands. -/
def jsMul (a b : Num) : Num := mulNumbers a.toNumber b.toNumber

/-- Models the conversion of a value to a string, as in `String(x)`, a template
literal or an assignment to `textContent`. -/
def Num.toText : Num → String
  | .int n => toString n
  | .negZero => "0"
  | .infinity false => "Infinity"
  | .infinity true => "-Infinity"
  | .nan => "NaN"
  | .null => "null"

/-- What `JSON.parse` reads back for a number `JSON.stringify` has written:
a number that is not finite is written as `null`, negative zero as `0`. -/
def Num.readBack : Num → Num
  | .infinity _ => .null
  | .nan => .null
  | .negZero => .int 0
  | x => x

/-- A chosen combination of options: own properties of the object, in order. -/
abbrev Variant := List (String × String)

/-- One entry of `products.json`. -/
structure Product where
  id : String
  name : String
  price : Int
  image : String
  category : String
  description : String
  options : List (String × List String)
  deriving DecidableEq, Repr

/-- The object literal pushed by `addToCart`. -/
structure CartItem where
  id : String
  name : String
  price : Int
  quantity : Num
  variant : Variant
  deriving DecidableEq, Repr

/-- A line item as `JSON.parse` reads it back after `JSON.stringify`. -/
def CartItem.readBack (item : CartItem) : CartItem :=
  { item with quantity := item.quantity.readBack }

/-! ## `JSON.stringify` on option mappings -/

namespace JSON

/-- Lower-case hexadecimal digit of a value below sixteen. -/
def hexDigit (n : Nat) : Char :=
  if n < 10 then Char.ofNat (48 + n) else Char.ofNat (87 + n)

/-- The escape of one character inside a JSON string (QuoteJSONString). -/
def quoteChar (c : Char) : List Char :=
  if c.toNat = 8 then [Char.ofNat 92, 'b']
  else if c.toNat = 9 then [Char.ofNat 92, 't']
  else if c.toNat = 10 then [Char.ofNat 92, 'n']
  else if c.toNat = 12 then [Char.ofNat 92, 'f']
  else if c.toNat = 13 then [Char.ofNat 92, 'r']
  else if c.toNat = 34 then [Char.ofNat 92, Char.ofNat 34]
  else if c.toNat = 92 then [Char.ofNat 92, Char.ofNat 92]
  else if c.toNat < 32 then
    [Char.ofNat 92, 'u', '0', '0', hexDigit (c.toNat / 16), hexDigit (c.toNat % 16)]
  else [c]

/-- The text `JSON.stringify` gives for a string: quoted and escaped. -/
def quote (s : String) : String :=
  String.mk ([Char.ofNat 34] ++ s.toList.flatMap quoteChar ++ [Char.ofNat 34])

/-- The text `JSON.stringify` gives for an object whose values are strings. -/
def stringify (variant : Variant) : String :=
  "\x7b" ++ String.intercalate "," (variant.map fun kv => quote kv.1 ++ ":" ++ quote kv.2)
    ++ "\x7d"

end JSON

/-! ## Local storage -/

/-- A value `JSON.parse` can return for the text under the `cart` key.  The
data model knows the cart as an array of line items; `null` is what the text
`null` (and an absent key) parses to. -/
inductive JSValue where
  | null
  | array (items : List CartItem)
  deriving DecidableEq, Repr

/-- The string held under a storage key, seen through `JSON.parse`: either
text that is not JSON, or the text `JSON.stringify` gives for a value. -/
inductive StoredText where
  | unparsable (raw : String)
  | json (value : JSValue)
  deriving DecidableEq, Repr

/-- The browser's `localStorage`; the script uses the single key `cart`. -/
structure LocalStorage where
  cart : Option StoredText
  deriving DecidableEq, Repr

/-- Models `localStorage.getItem('cart')`: `none` is JavaScript `null`. -/
def LocalStorage.getItem (ls : LocalStorage) : Option StoredText := ls.cart

/-- Models `localStorage.setItem('cart', text)`. -/
def LocalStorage.setItem (_ls : LocalStorage) (text : StoredText) : LocalStorage :=
  { cart := some text }

/-- Models `localStorage.removeItem('cart')`. -/
def LocalStorage.removeItem (_ls : LocalStorage) : LocalStorage :=
  { cart := none }

/-- Models `JSON.parse(text)`: a `null` argument is converted to the text
`null`, text that is not JSON raises `SyntaxError`, the text of an array of
line items gives the line items as JSON reads them back. -/
def JSON.parse : Option StoredText → Except JSError JSValue
  | none => .ok .null
  | some (.unparsable _) => .error .SyntaxError
  | some (.json .null) => .ok .null
  | some (.json (.array items)) => .ok (.array (items.map CartItem.readBack))

/-- Models `value || []` for a parsed value: `null` is falsy, an array is truthy. -/
def orEmpty : JSValue → List CartItem
  | .null => []
  | .array items => items

/-- Source: `getCart`, `JSON.parse(localStorage.getItem('cart')) || []`. -/
def getCart (ls : LocalStorage) : Except JSError (List CartItem) :=
  match JSON.parse ls.getItem with
  | .error e => .error e
  | .ok value => .ok (orEmpty value)

/-! ## Analytics events -/

/-- A primitive parameter value. -/
inductive Scalar where
  | str (s : String)
  | num (x : Num)
  | undefined
  deriving DecidableEq, Repr

/-- An object literal with primitive values: keys in order of writing. -/
abbrev Bag := List (String × Scalar)

/-- A value of the parameter object handed to `fireGA4Event`. -/
inductive ParamValue where
  | scalar (v : Scalar)
  | items (objects : List Bag)
  | cartItems (copies : List CartItem)
  deriving DecidableEq, Repr

/-- The object `fireGA4Event` logs: `event` followed by the spread parameters
(no call site passes a parameter named `event`). -/
structure GA4Event where
  event : String
  parameters : List (String × ParamValue)
  deriving DecidableEq, Repr

/-! ## Document, listeners, world -/

/-- The parts of the page the script reads and writes. -/
structure Document where
  /-- Holds `document.body.id`. -/
  bodyId : String
  /-- Holds the decoded parameters of `window.location.search`. -/
  search : List (String × String)
  /-- Holds the `textContent` of each element matched by `#cart-count`. -/
  cartCount : List String
  /-- Holds, for each element found by `getElementById`, its id and contents. -/
  elements : List (String × String)
  /-- Holds the `value` of `#payment-method`, if the element exists. -/
  paymentMethod : Option String
  deriving DecidableEq, Repr

/-- Models `document.getElementById(id)`: the contents of the first element
with that id, `none` for JavaScript `null`. -/
def Document.getElementById (d : Document) (id : String) : Option String :=
  d.elements.lookup id

/-- Replaces the contents of the first entry whose id is `id`. -/
def setFirst (id : String) (contents : String) : List (String × String) → List (String × String)
  | [] => []
  | (k, v) :: rest =>
    if id == k then (k, contents) :: rest else (k, v) :: setFirst id contents rest

/-- Models an assignment to `innerHTML` or `textContent` of the element
`getElementById(id)` returned. -/
def Document.setContents (d : Document) (id : String) (contents : String) : Document :=
  { d with elements := setFirst id contents d.elements }

/-- Models `new URLSearchParams(window.location.search).get(name)`. -/
def Document.param (d : Document) (name : String) : Option String :=
  d.search.lookup name

/-- A closure passed to `addEventListener`, with the variables it captured. -/
inductive Listener where
  | selectItem (products : List Product) (itemListId itemListName : String)
      (productId : String) (position : Nat)
  | viewPromotion
  | addToCartClick (product : Product)
  | beginCheckout (totalValue : Num) (cart : List CartItem)
  | addShippingInfo (totalValue shippingCost : Num) (cart : List CartItem)
  | addPaymentInfo (totalValue shippingCost : Num) (cart : List CartItem)
  | purchase (totalValue shippingCost : Num) (cart : List CartItem)
  deriving DecidableEq, Repr

/-- One `addEventListener` call: the element, the event type, the closure. -/
structure Registration where
  target : String
  type : String
  handler : Listener
  deriving DecidableEq, Repr

/-- Everything the script can observe or change. -/
structure World where
  localStorage : LocalStorage
  document : Document
  /-- Holds the objects logged by `fireGA4Event`, oldest first. -/
  console : List GA4Event
  /-- Holds the `addEventListener` calls made so far, oldest first. -/
  listeners : List Registration
  /-- Holds the messages shown by `alert`, oldest first. -/
  alerts : List String
  /-- Holds the last value assigned to `window.location.href`. -/
  href : Option String
  deriving DecidableEq, Repr

/-- The world when control leaves a function, and the exception if it threw. -/
structure Outcome where
  world : World
  thrown : Option JSError
  deriving DecidableEq, Repr

/-- Normal completion. -/
def Outcome.done (w : World) : Outcome := { world := w, thrown := none }

/-- Abrupt completion with an exception. -/
def Outcome.throw (w : World) (e : JSError) : Outcome := { world := w, thrown := some e }

/-- Source: `fireGA4Event`, `console.log` of the event object. -/
def fireGA4Event (eventName : String) (parameters : List (String × ParamValue)) (w : World) :
    World :=
  { w with console := w.console ++ [{ event := eventName, parameters := parameters }] }

/-- Models `alert(message)`. -/
def alert (message : String) (w : World) : World :=
  { w with alerts := w.alerts ++ [message] }

/-- Models `element.addEventListener(type, handler)`. -/
def addEventListener (target type : String) (handler : Listener) (w : World) : World :=
  { w with listeners := w.listeners ++ [{ target := target, type := type, handler := handler }] }

/-- Puts a comma after every third digit; the digits come least significant
first. -/
def groupDigits : List Char → List Char
  | a :: b :: c :: d :: rest => a :: b :: c :: ',' :: groupDigits (d :: rest)
  | digits => digits

/-- Models `number.toLocaleString()` for an integer in the `en-US` and `ko-KR`
locales: an optional minus sign and the digits in groups of three. -/
def toLocaleString (n : Int) : String :=
  let body := String.mk (groupDigits (Nat.toDigits 10 n.natAbs).reverse).reverse
  if n < 0 then "-" ++ body else body

/-- Models `x.toLocaleString()` for a computed number (`en-US`, `ko-KR`); the
script never calls it on `null`. -/
def Num.toLocaleString : Num → String
  | .int n => GA4Shop.toLocaleString n
  | .negZero => "-0"
  | .infinity false => "∞"
  | .infinity true => "-∞"
  | .nan => "NaN"
  | .null => "null"

/-! ## Cart store -/

/-- Source: the `cart.reduce` of `updateCartCount`, a sum of doubles from 0. -/
def totalCountOf (cart : List CartItem) : Num :=
  cart.foldl (fun sum item => jsAdd sum item.quantity) (.int 0)

/-- Source: `updateCartCount`. -/
def updateCartCount (w : World) : Outcome :=
  match getCart w.localStorage with
  | .error e => .throw w e
  | .ok cart =>
    let totalCount := totalCountOf cart
    .done { w with document :=
      { w.document with cartCount := w.document.cartCount.map fun _ => totalCount.toText } }

/-- Source: `saveCart`. -/
def saveCart (cart : List CartItem) (w : World) : Outcome :=
  updateCartCount
    { w with localStorage := w.localStorage.setItem (.json (.array cart)) }

/-- The callback of `cart.find` in `addToCart`. -/
def sameLine (productId : String) (variant : Variant) (item : CartItem) : Bool :=
  item.id == productId && JSON.stringify item.variant == JSON.stringify variant

/-- Models `existingItem.quantity += quantity` on the object `cart.find`
returned, the first element the callback accepts. -/
def bumpFirst (p : CartItem → Bool) (quantity : Int) : List CartItem → List CartItem
  | [] => []
  | item :: rest =>
    if p item then { item with quantity := jsAdd item.quantity (.int quantity) } :: rest
    else item :: bumpFirst p quantity rest

/-- Source: `addToCart`. -/
def addToCart (productId productName : String) (productPrice quantity : Int)
    (variant : Variant) (w : World) : Outcome :=
  match getCart w.localStorage with
  | .error e => .throw w e
  | .ok cart =>
    match cart.find? (sameLine productId variant) with
    | some _ => saveCart (bumpFirst (sameLine productId variant) quantity cart) w
    | none =>
      saveCart (cart ++ [{ id := productId, name := productName, price := productPrice,
                           quantity := .int quantity, variant := variant }]) w

/-! ## Page renderers -/

/-- Sequencing of statements: the next statement runs only if nothing was thrown. -/
def Outcome.andThen (r : Outcome) (next : World → Outcome) : Outcome :=
  match r.thrown with
  | some _ => r
  | none => next r.world

/-- Models `containerElement.appendChild(child)` and `element.innerHTML += html`
seen through `innerHTML`: the markup is added after the present contents. -/
def Document.appendContents (d : Document) (id : String) (html : String) : Document :=
  d.setContents id ((d.getElementById id).getD "" ++ html)

/-- Models `document.getElementById(id).innerHTML = html`, also used for
`textContent`: a `TypeError` when the element is `null`. -/
def setInnerHTML (id : String) (html : String) (w : World) : Outcome :=
  match w.document.getElementById id with
  | none => .throw w .TypeError
  | some _ => .done { w with document := w.document.setContents id html }

/-- Models `document.getElementById(id).addEventListener(type, handler)`: a
`TypeError` when the element is `null`. -/
def listen (id type : String) (handler : Listener) (w : World) : Outcome :=
  match w.document.getElementById id with
  | none => .throw w .TypeError
  | some _ => .done (addEventListener id type handler w)

/-- The template literal assigned to `productCard.innerHTML` in `renderProducts`. -/
def productCardHtml (product : Product) : String :=
  "\n            <a href=\"product-detail.html?id=" ++ product.id
    ++ "\" class=\"select-item-trigger\" data-product-id=\"" ++ product.id
    ++ "\" data-product-name=\"" ++ product.name
    ++ "\">\n                <img src=\"" ++ product.image ++ "\" alt=\"" ++ product.name
    ++ "\">\n                <h3>" ++ product.name
    ++ "</h3>\n                <p class=\"price\">" ++ toLocaleString product.price
    ++ "원</p>\n            </a>\n        "

/-- The `div` of class `product-card` as it is serialised inside its container. -/
def productCard (product : Product) : String :=
  "<div class=\"product-card\">" ++ productCardHtml product ++ "</div>"

/-- The `items` of `view_item_list`: `products.map` with `index + 1`. -/
def listItems : Nat → List Product → List Bag
  | _, [] => []
  | index, p :: rest =>
    [("item_id", .str p.id), ("item_name", .str p.name), ("price", .num (.int p.price)),
     ("item_category", .str p.category), ("index", .num (.int (index + 1)))]
      :: listItems (index + 1) rest

/-- The click listeners `renderProducts` adds to the `.select-item-trigger`
links, one per card it has just rendered (the pages hold no other such link);
`position` is the index of the card among the children of its container. -/
def selectListeners (products : List Product) (itemListId itemListName : String) :
    Nat → List Product → World → World
  | _, [], w => w
  | position, product :: rest, w =>
    selectListeners products itemListId itemListName (position + 1) rest
      (addEventListener ".select-item-trigger" "click"
        (.selectItem products itemListId itemListName product.id (position + 1)) w)

/-- Source: `renderProducts`.  The element argument is given by the id its
callers look it up with; an absent element is the `null` argument. -/
def renderProducts (products : List Product) (containerId : String)
    (itemListId itemListName : String) (w : World) : Outcome :=
  match w.document.getElementById containerId with
  | none => .done w
  | some _ =>
    let cleared : World := { w with document := w.document.setContents containerId "" }
    let filled : World := products.foldl (fun (w : World) product =>
      { w with document := w.document.appendContents containerId (productCard product) }) cleared
    let wired := selectListeners products itemListId itemListName 0 products filled
    .done (fireGA4Event "view_item_list"
      [("item_list_id", .scalar (.str itemListId)),
       ("item_list_name", .scalar (.str itemListName)),
       ("items", .items (listItems 0 products))] wired)

/-- Source: `loadHomePage`. -/
def loadHomePage (products : List Product) (w : World) : Outcome :=
  let recommendedProducts := products.take 4
  (renderProducts recommendedProducts "recommended-products" "home_recommendations"
    "홈 추천 상품" w).andThen fun w =>
  listen "promo-banner" "click" .viewPromotion w

/-- Source: `loadProductsPage`. -/
def loadProductsPage (products : List Product) (w : World) : Outcome :=
  renderProducts products "all-products" "all_products_list" "전체 상품 목록" w

/-- The `optionsHtml` string built by the `for ... in` loop of `loadProductDetailPage`. -/
def optionsHtml (options : List (String × List String)) : String :=
  options.foldl (fun html option =>
    let key := option.1
    let opened := html ++ ("<label for=\"option-" ++ key ++ "\">" ++ key
      ++ "</label><select id=\"option-" ++ key ++ "\" class=\"product-option\">")
    let listed := option.2.foldl (fun html value =>
      html ++ ("<option value=\"" ++ value ++ "\">" ++ value ++ "</option>")) opened
    listed ++ "</select>") ""

/-- The template literal assigned to the detail container for a known product. -/
def productDetailHtml (product : Product) (optionsHtml : String) : String :=
  "\n            <div class=\"product-detail-layout\">\n                <div class=\"product-image-container\">\n                    <img src=\""
    ++ product.image ++ "\" alt=\"" ++ product.name
    ++ "\" style=\"max-width: 100%;\">\n                </div>\n                <div class=\"product-info-container\">\n                    <h1>"
    ++ product.name
    ++ "</h1>\n                    <p style=\"font-size: 1.5em; color: var(--primary-color);\">"
    ++ toLocaleString product.price ++ "원</p>\n                    <p>" ++ product.description
    ++ "</p>\n                    " ++ optionsHtml
    ++ "\n                    <button id=\"add-to-cart-btn\" class=\"btn\">장바구니 담기</button>\n                </div>\n            </div>\n        "

/-- The markup shown for an id that is not in the catalog. -/
def notFoundHtml : String := "<h1>상품을 찾을 수 없습니다.</h1>"

/-- The parameters of the `view_item` event for a product. -/
def viewItemParameters (product : Product) : List (String × ParamValue) :=
  [("currency", .scalar (.str "KRW")), ("value", .scalar (.num (.int product.price))),
   ("items", .items [[("item_id", .str product.id), ("item_name", .str product.name),
                      ("price", .num (.int product.price)),
                      ("item_category", .str product.category)]])]

/-- Source: `loadProductDetailPage`. -/
def loadProductDetailPage (products : List Product) (w : World) : Outcome :=
  let productId := w.document.param "id"
  match products.find? (fun p => some p.id == productId) with
  | some product =>
    (setInnerHTML "product-detail-main"
      (productDetailHtml product (optionsHtml product.options)) w).andThen fun w =>
    let w := fireGA4Event "view_item" (viewItemParameters product) w
    .done (addEventListener "add-to-cart-btn" "click" (.addToCartClick product) w)
  | none => setInnerHTML "product-detail-main" notFoundHtml w

/-- The template literal appended to the cart container for one line item. -/
def cartItemHtml (product : Product) (item : CartItem) : String :=
  "\n            <div class=\"cart-item\">\n                <img src=\"" ++ product.image
    ++ "\" alt=\"" ++ item.name
    ++ "\">\n                <div class=\"cart-item-info\">\n                    <h4>" ++ item.name
    ++ "</h4>\n                    <p>" ++ String.intercalate "/" (item.variant.map fun kv => kv.2)
    ++ "</p>\n                </div>\n                <p>" ++ item.quantity.toText
    ++ "개</p>\n                <p>" ++ (jsMul (.int item.price) item.quantity).toLocaleString
    ++ "원</p>\n            </div>\n        "

/-- The template literal assigned to the cart summary. -/
def cartSummaryHtml (totalValue : Num) : String :=
  "\n        <h2>총 주문 금액: " ++ totalValue.toLocaleString
    ++ "원</h2>\n        <a href=\"checkout.html\" id=\"begin-checkout-btn\" class=\"btn\">주문하기</a>\n    "

/-- The callback of `cart.forEach` in `loadCartPage`, run over the remaining
line items with the running `totalValue`; reading `product.image` of a line
item whose id is not in the catalog is a `TypeError`. -/
def renderCartItems (products : List Product) : List CartItem → Num → World → Num × Outcome
  | [], totalValue, w => (totalValue, .done w)
  | item :: rest, totalValue, w =>
    let totalValue := jsAdd totalValue (jsMul (.int item.price) item.quantity)
    match products.find? (fun p => p.id == item.id) with
    | none => (totalValue, .throw w .TypeError)
    | some product =>
      renderCartItems products rest totalValue
        { w with document :=
            w.document.appendContents "cart-items-container" (cartItemHtml product item) }

/-- The `items` of the `view_cart` event. -/
def viewCartItems (cart : List CartItem) : List Bag :=
  cart.map fun item =>
    [("item_id", .str item.id), ("item_name", .str item.name),
     ("price", .num (.int item.price)),
     ("item_variant", .str (String.intercalate "/" (item.variant.map fun kv => kv.2))),
     ("quantity", .num item.quantity)]

/-- The markup shown for an empty cart. -/
def emptyCartHtml : String := "<p>장바구니가 비어있습니다.</p>"

/-- Source: `loadCartPage`. -/
def loadCartPage (products : List Product) (w : World) : Outcome :=
  match getCart w.localStorage with
  | .error e => .throw w e
  | .ok cart =>
    if cart.length = 0 then
      (setInnerHTML "cart-items-container" emptyCartHtml w).andThen fun w =>
      setInnerHTML "cart-summary" "" w
    else
      (setInnerHTML "cart-items-container" "" w).andThen fun w =>
      let loop := renderCartItems products cart (.int 0) w
      let totalValue := loop.1
      loop.2.andThen fun w =>
      (setInnerHTML "cart-summary" (cartSummaryHtml totalValue) w).andThen fun w =>
      let w := fireGA4Event "view_cart"
        [("currency", .scalar (.str "KRW")), ("value", .scalar (.num totalValue)),
         ("items", .items (viewCartItems cart))] w
      .done (addEventListener "begin-checkout-btn" "click" (.beginCheckout totalValue cart) w)

/-- The template literal appended to the order summary by `loadCheckoutPage`. -/
def orderSummaryHtml (totalValue shippingCost : Num) : String :=
  "\n        <div class=\"order-summary-item\"><span>상품 금액</span><span>"
    ++ totalValue.toLocaleString
    ++ "원</span></div>\n        <div class=\"order-summary-item\"><span>배송비</span><span>"
    ++ shippingCost.toLocaleString
    ++ "원</span></div>\n        <div class=\"order-summary-item\" style=\"font-weight:bold;\"><span>총 결제 금액</span><span>"
    ++ (jsAdd totalValue shippingCost).toLocaleString ++ "원</span></div>\n    "

/-- Source: the `cart.reduce` of `loadCheckoutPage`, a sum of products of
doubles from 0; the `forEach` loop of `loadCartPage` accumulates the same
value. -/
def totalValueOf (cart : List CartItem) : Num :=
  cart.foldl (fun sum item => jsAdd sum (jsMul (.int item.price) item.quantity)) (.int 0)

/-- Source: `loadCheckoutPage`. -/
def loadCheckoutPage (w : World) : Outcome :=
  match getCart w.localStorage with
  | .error e => .throw w e
  | .ok cart =>
    let totalValue := totalValueOf cart
    let shippingCost : Num := .int 3000
    match w.document.getElementById "order-summary" with
    | none => .throw w .TypeError
    | some _ =>
      let w : World := { w with document :=
        w.document.appendContents "order-summary" (orderSummaryHtml totalValue shippingCost) }
      (listen "shipping-form" "submit" (.addShippingInfo totalValue shippingCost cart) w).andThen
        fun w =>
      (listen "payment-form" "submit" (.addPaymentInfo totalValue shippingCost cart) w).andThen
        fun w =>
      listen "purchase-button" "click" (.purchase totalValue shippingCost cart) w

/-- Source: `loadConfirmationPage`; assigning `null` to `textContent` empties it. -/
def loadConfirmationPage (w : World) : Outcome :=
  let tid := w.document.param "tid"
  setInnerHTML "transaction-id" (tid.getD "") w

/-! ## Event handlers -/

/-- What a handler reads from the user, the clock and the clicked element. -/
structure UserInput where
  /-- Holds label text and selected value of each `.product-option`, in page order. -/
  selectedOptions : Variant
  /-- Holds the value of `Date.now()`. -/
  now : Int
  /-- Holds `e.target.dataset.promotionId`. -/
  promotionId : Scalar
  /-- Holds `e.target.dataset.promotionName`. -/
  promotionName : Scalar
  deriving DecidableEq, Repr

/-- Source: the `select_item` click handler of `renderProducts`. -/
def onSelectItemClick (products : List Product) (itemListId itemListName productId : String)
    (position : Nat) (w : World) : Outcome :=
  match products.find? (fun p => p.id == productId) with
  | none => .throw w .TypeError
  | some product =>
    .done (fireGA4Event "select_item"
      [("item_list_id", .scalar (.str itemListId)),
       ("item_list_name", .scalar (.str itemListName)),
       ("items", .items [[("item_id", .str product.id), ("item_name", .str product.name),
                          ("price", .num (.int product.price)),
                          ("item_category", .str product.category),
                          ("index", .num (.int position))]])] w)

/-- Source: the click handler of `#promo-banner` in `loadHomePage`. -/
def onPromoClick (input : UserInput) (w : World) : Outcome :=
  let w := fireGA4Event "view_promotion"
    [("promotion_id", .scalar input.promotionId),
     ("promotion_name", .scalar input.promotionName)] w
  .done (alert "프로모션 배너 클릭 이벤트가 수집되었습니다!" w)

/-- Source: the click handler of `#add-to-cart-btn` in `loadProductDetailPage`. -/
def onAddToCartClick (product : Product) (input : UserInput) (w : World) : Outcome :=
  let selectedOptions := input.selectedOptions
  (addToCart product.id product.name product.price 1 selectedOptions w).andThen fun w =>
  let w := alert (product.name ++ " 상품이 장바구니에 담겼습니다.") w
  .done (fireGA4Event "add_to_cart"
    [("currency", .scalar (.str "KRW")), ("value", .scalar (.num (.int product.price))),
     ("items", .items [[("item_id", .str product.id), ("item_name", .str product.name),
                        ("price", .num (.int product.price)),
                        ("item_category", .str product.category),
                        ("item_variant",
                          .str (String.intercalate "/" (selectedOptions.map fun kv => kv.2))),
                        ("quantity", .num (.int 1))]])] w)

/-- Source: the click handler of `#begin-checkout-btn` in `loadCartPage`. -/
def onBeginCheckoutClick (totalValue : Num) (cart : List CartItem) (w : World) : Outcome :=
  .done (fireGA4Event "begin_checkout"
    [("currency", .scalar (.str "KRW")), ("value", .scalar (.num totalValue)),
     ("items", .cartItems cart)] w)

/-- Source: the submit handler of `#shipping-form` in `loadCheckoutPage`. -/
def onShippingSubmit (totalValue shippingCost : Num) (cart : List CartItem) (w : World) :
    Outcome :=
  let w := alert "배송 정보가 저장되었습니다." w
  .done (fireGA4Event "add_shipping_info"
    [("currency", .scalar (.str "KRW")), ("value", .scalar (.num (jsAdd totalValue shippingCost))),
     ("shipping_tier", .scalar (.str "Standard Shipping")),
     ("items", .cartItems cart)] w)

/-- Source: the submit handler of `#payment-form` in `loadCheckoutPage`. -/
def onPaymentSubmit (totalValue shippingCost : Num) (cart : List CartItem) (w : World) :
    Outcome :=
  let w := alert "결제 수단이 저장되었습니다." w
  match w.document.paymentMethod with
  | none => .throw w .TypeError
  | some paymentType =>
    .done (fireGA4Event "add_payment_info"
      [("currency", .scalar (.str "KRW")),
       ("value", .scalar (.num (jsAdd totalValue shippingCost))),
       ("payment_type", .scalar (.str paymentType)),
       ("items", .cartItems cart)] w)

/-- Source: the click handler of `#purchase-button` in `loadCheckoutPage`. -/
def onPurchaseClick (totalValue shippingCost : Num) (cart : List CartItem) (input : UserInput)
    (w : World) : Outcome :=
  let transactionId := "T-" ++ toString input.now
  let w := fireGA4Event "purchase"
    [("transaction_id", .scalar (.str transactionId)),
     ("value", .scalar (.num (jsAdd totalValue shippingCost))),
     ("shipping", .scalar (.num shippingCost)),
     ("currency", .scalar (.str "KRW")),
     ("items", .cartItems cart)] w
  let w : World := { w with localStorage := w.localStorage.removeItem }
  .done { w with href := some ("confirmation.html?tid=" ++ transactionId) }

/-- Runs the closure of a registered listener. -/
def Listener.run (input : UserInput) (w : World) : Listener → Outcome
  | .selectItem products itemListId itemListName productId position =>
    onSelectItemClick products itemListId itemListName productId position w
  | .viewPromotion => onPromoClick input w
  | .addToCartClick product => onAddToCartClick product input w
  | .beginCheckout totalValue cart => onBeginCheckoutClick totalValue cart w
  | .addShippingInfo totalValue shippingCost cart =>
    onShippingSubmit totalValue shippingCost cart w
  | .addPaymentInfo totalValue shippingCost cart =>
    onPaymentSubmit totalValue shippingCost cart w
  | .purchase totalValue shippingCost cart =>
    onPurchaseClick totalValue shippingCost cart input w

/-! ## Main -/

/-- Source: the `DOMContentLoaded` handler.  `fetched` is the outcome of
fetching and decoding `products.json`.  An exception of `updateCartCount`
leaves the handler; a failed fetch is caught and logged; an exception of a
page loader is either caught and logged (checkout, confirmation) or rejects
the promise of an `async` loader nobody awaits: the handler completes
normally in each case. -/
def onDOMContentLoaded (fetched : Except JSError (List Product)) (w : World) : Outcome :=
  (updateCartCount w).andThen fun w =>
  match fetched with
  | .error _ => .done w
  | .ok products =>
    let pageId := w.document.bodyId
    if pageId = "page-home" then .done (loadHomePage products w).world
    else if pageId = "page-products" then .done (loadProductsPage products w).world
    else if pageId = "page-product-detail" then .done (loadProductDetailPage products w).world
    else if pageId = "page-cart" then .done (loadCartPage products w).world
    else if pageId = "page-checkout" then .done (loadCheckoutPage w).world
    else if pageId = "page-confirmation" then .done (loadConfirmationPage w).world
    else .done w

/-! ## Vocabulary of the specification -/

/-- The integer a value stands for: the value of a finite number, 0 otherwise. -/
def Num.value : Num → Int
  | .int n => n
  | _ => 0

/-- Tells whether a value is a finite number with an integer value. -/
def Num.isInt : Num → Bool
  | .int _ => true
  | _ => false

/-- Tells whether a value is an integer of at least one. -/
def Num.atLeastOne : Num → Bool
  | .int n => decide (1 ≤ n)
  | _ => false

/-- The sum over all line items of price times quantity, in exact arithmetic. -/
def cartTotal (cart : List CartItem) : Int :=
  (cart.map fun item => item.price * item.quantity.value).sum

/-- The total item count: the sum of the quantities of all line items, in
exact arithmetic. -/
def totalQuantity (cart : List CartItem) : Int :=
  (cart.map fun item => item.quantity.value).sum

/-- Every line item has an integer quantity. -/
def IntegerQuantities (cart : List CartItem) : Prop :=
  ∀ item ∈ cart, item.quantity.isInt = true

instance (cart : List CartItem) : Decidable (IntegerQuantities cart) := by
  unfold IntegerQuantities; infer_instance

/-- The magnitudes of the quantities of a cart, added up. -/
def quantityMass (cart : List CartItem) : Nat :=
  (cart.map fun item => item.quantity.value.natAbs).sum

/-- The magnitudes of price times quantity of the line items, added up. -/
def valueMass (cart : List CartItem) : Nat :=
  (cart.map fun item => (item.price * item.quantity.value).natAbs).sum


/-- Identity for merge purposes: the id and the serialized variant of a line
item are those of an `addToCart` call. -/
def Matches (productId : String) (variant : Variant) (item : CartItem) : Prop :=
  item.id = productId ∧ JSON.stringify item.variant = JSON.stringify variant

instance (productId : String) (variant : Variant) (item : CartItem) :
    Decidable (Matches productId variant item) := by
  unfold Matches; infer_instance

/-- A well-formed cart: every quantity is an integer of at least one and no two line items
have both the same id and the same serialized variant. -/
def WellFormed (cart : List CartItem) : Prop :=
  (∀ item ∈ cart, item.quantity.atLeastOne = true) ∧
    cart.Pairwise fun a b => ¬ Matches a.id a.variant b

instance (cart : List CartItem) : Decidable (WellFormed cart) := by
  unfold WellFormed; infer_instance

/-- The arguments of one `addToCart` call. -/
structure AddCall where
  productId : String
  productName : String
  productPrice : Int
  quantity : Int
  variant : Variant
  deriving DecidableEq, Repr

/-- Runs `addToCart` with the arguments of a call. -/
def AddCall.run (call : AddCall) (w : World) : Outcome :=
  addToCart call.productId call.productName call.productPrice call.quantity call.variant w

/-- Runs a sequence of `addToCart` calls, one after the other. -/
def addCalls : List AddCall → World → World
  | [], w => w
  | call :: rest, w => addCalls rest (call.run w).world

/-- The line item an `addToCart` call appends. -/
def AddCall.item (call : AddCall) : CartItem :=
  { id := call.productId, name := call.productName, price := call.productPrice,
    quantity := .int call.quantity, variant := call.variant }

/-- Tells whether the sum a call makes stays finite: the quantity of every
line item the call can merge into, plus the quantity of the call, is below the
bound from which on a double is an infinity. -/
def AddCall.staysFinite (call : AddCall) (w : World) : Bool :=
  match getCart w.localStorage with
  | .error _ => true
  | .ok cart =>
    cart.all fun item =>
      !(sameLine call.productId call.variant item) ||
        decide (item.quantity.value + call.quantity < overflowMagnitude)

/-- A sequence of `addToCart` calls each of which, when its turn comes, has a
quantity of at least one and makes a sum that stays finite. -/
def Admissible : List AddCall → World → Prop
  | [], _ => True
  | call :: rest, w =>
    1 ≤ call.quantity ∧ call.staysFinite w = true ∧ Admissible rest (call.run w).world

instance : (calls : List AddCall) → (w : World) → Decidable (Admissible calls w)
  | [], _ => isTrue trivial
  | call :: rest, w =>
    have := instDecidableAdmissible rest (call.run w).world
    inferInstanceAs (Decidable (_ ∧ _ ∧ _))

/-! ## Auxiliary functions for the statements about rendering -/

/-- The serialised cards of a list of products, in order: what the `forEach`
loop of `renderProducts` appends to the cleared container. -/
def cardsHtml : List Product → String
  | [] => ""
  | product :: rest => productCard product ++ cardsHtml rest

/-- What the `forEach` loop of `loadCartPage` leaves behind: the markup it has
appended to the cart container when it ends, and the exception that ended it. -/
def renderedCart (products : List Product) : List CartItem → String × Option JSError
  | [] => ("", none)
  | item :: rest =>
    match products.find? (fun p => p.id == item.id) with
    | none => ("", some .TypeError)
    | some product =>
      (cartItemHtml product item ++ (renderedCart products rest).1,
        (renderedCart products rest).2)

/-! ## A sample catalog and sample pages -/

/-- A catalog entry with one option. -/
def sampleProduct : Product :=
  { id := "p1", name := "Tee", price := 1000, image := "images/p1.jpg", category := "Apparel",
    description := "Plain tee", options := [("Size", ["S", "M"])] }

/-- A catalog with the single product `p1` of price 1000. -/
def sampleCatalog : List Product := [sampleProduct]

/-- A page that holds every element the script looks up, and two cart-count
indicators. -/
def sampleDocument (bodyId : String) (search : List (String × String)) : Document :=
  { bodyId := bodyId
    search := search
    cartCount := ["7", ""]
    elements :=
      [("recommended-products", ""), ("promo-banner", "SALE"), ("all-products", ""),
       ("product-detail-main", "..."), ("cart-items-container", ""), ("cart-summary", ""),
       ("order-summary", "<h2>주문 요약</h2>"), ("shipping-form", ""), ("payment-form", ""),
       ("purchase-button", "결제하기"), ("transaction-id", "")]
    paymentMethod := some "card" }

/-- A world on a sample page with the given storage and nothing logged yet. -/
def sampleWorld (bodyId : String) (search : List (String × String)) (stored : Option StoredText) :
    World :=
  { localStorage := { cart := stored }
    document := sampleDocument bodyId search
    console := []
    listeners := []
    alerts := []
    href := none }

/-- The line item of `p1` in size M, quantity one. -/
def sampleItemM : CartItem :=
  { id := "p1", name := "Tee", price := 1000, quantity := .int 1, variant := [("Size", "M")] }

/-- The line item of `p1` in size S, quantity two. -/
def sampleItemS : CartItem :=
  { id := "p1", name := "Tee", price := 1000, quantity := .int 2, variant := [("Size", "S")] }

/-- A line item of `p1` in size S whose quantity is 2^53, the first integer
whose successor is not a double. -/
def roundingItem : CartItem :=
  { id := "p1", name := "Tee", price := 1000, quantity := .int 9007199254740992,
    variant := [("Size", "S")] }

/-- A line item of `p1` in size S whose quantity is 2^1023. -/
def overflowItem : CartItem :=
  { id := "p1", name := "Tee", price := 1000, quantity := .int ((2 ^ 256) ^ 3 * 2 ^ 255),
    variant := [("Size", "S")] }

/-- A line item of `p1` of price 94906267 and quantity 94906267: the exact
product 9007199515875289 is odd and above 2^53, so it is not a double. -/
def roundedValueItem : CartItem :=
  { id := "p1", name := "Tee", price := 94906267, quantity := .int 94906267,
    variant := [("Size", "S")] }

/-- A stored cart with two line items of the same product. -/
def sampleCart : List CartItem := [sampleItemM, sampleItemS]

/-- What a visitor enters: size S chosen, the clock at 1700000000000. -/
def sampleInput : UserInput :=
  { selectedOptions := [("Size", "S")], now := 1700000000000,
    promotionId := .str "summer", promotionName := .str "Summer sale" }

/-- The document `loadCartPage` leaves, as a function of the catalog, the
storage and the document it started from. -/
def cartPageDocument (products : List Product) (ls : LocalStorage) (d : Document) : Document :=
  match getCart ls with
  | .error _ => d
  | .ok cart =>
    match d.getElementById "cart-items-container" with
    | none => d
    | some _ =>
      if cart.length = 0 then
        (d.setContents "cart-items-container" emptyCartHtml).setContents "cart-summary" ""
      else
        match (renderedCart products cart).2 with
        | some _ => d.setContents "cart-items-container" (renderedCart products cart).1
        | none =>
          (d.setContents "cart-items-container" (renderedCart products cart).1).setContents
            "cart-summary" (cartSummaryHtml (totalValueOf cart))

/-- The document `loadCheckoutPage` leaves, as a function of the storage and
the document it started from: the summary block is added after the contents
the order summary already has. -/
def checkoutDocument (ls : LocalStorage) (d : Document) : Document :=
  match getCart ls with
  | .error _ => d
  | .ok cart =>
    match d.getElementById "order-summary" with
    | none => d
    | some old =>
      d.setContents "order-summary"
        (old ++ orderSummaryHtml (totalValueOf cart) (.int 3000))

/-- The detail page of `p1` after the page has loaded with an unset cart and
the visitor has clicked the add-to-cart button twice with size S chosen. -/
def afterTwoClicks : World :=
  let loaded := (loadProductDetailPage sampleCatalog
    (sampleWorld "page-product-detail" [("id", "p1")] none)).world
  let once := ((Listener.addToCartClick sampleProduct).run sampleInput loaded).world
  ((Listener.addToCartClick sampleProduct).run sampleInput once).world

/-- The checkout page opened after `afterTwoClicks`, on the same storage. -/
def sampleCheckout : World :=
  sampleWorld "page-checkout" [] afterTwoClicks.localStorage.cart
/-! ## Numbers: lemmas -/

theorem overflowMagnitude_large : 2 ^ 53 < overflowMagnitude := by
  unfold overflowMagnitude
  norm_num

theorem droppedBits_small (fuel m : Nat) (h : m < 2 ^ 53) : droppedBits fuel m = 0 := by
  cases fuel with
  | zero => rfl
  | succ fuel => rw [droppedBits, if_pos h]

theorem roundMagnitude_small (m : Nat) (h : m < 2 ^ 53) : roundMagnitude m = m := by
  simp [roundMagnitude, droppedBits_small _ _ h, Nat.mod_one]

theorem roundDouble_safe (x : Int) (h : x.natAbs < 2 ^ 53) : roundDouble x = .int x := by
  have hlarge := overflowMagnitude_large
  have hfinite : ¬ overflowMagnitude ≤ x.natAbs := by omega
  unfold roundDouble
  rw [if_neg hfinite, roundMagnitude_small _ h]
  by_cases hneg : x < 0
  · rw [if_pos hneg]
    congr 1
    omega
  · rw [if_neg hneg]
    congr 1
    omega

theorem jsAdd_int (a b : Int) (h : (a + b).natAbs < 2 ^ 53) :
    jsAdd (.int a) (.int b) = .int (a + b) := by
  simp [jsAdd, Num.toNumber, addNumbers, roundDouble_safe _ h]

theorem jsMul_int (p n : Int) (h : (p * n).natAbs < 2 ^ 53) :
    jsMul (.int p) (.int n) = .int (p * n) ∨
      (jsMul (.int p) (.int n) = .negZero ∧ p * n = 0) := by
  by_cases hz : p * n = 0 ∧ (p < 0 ∨ n < 0)
  · right
    exact ⟨by simp only [jsMul, Num.toNumber, mulNumbers, if_pos hz], hz.1⟩
  · left
    simp only [jsMul, Num.toNumber, mulNumbers, if_neg hz, roundDouble_safe _ h]

theorem jsAdd_jsMul_int (s p n : Int) (hproduct : (p * n).natAbs < 2 ^ 53)
    (hsum : (s + p * n).natAbs < 2 ^ 53) :
    jsAdd (.int s) (jsMul (.int p) (.int n)) = .int (s + p * n) := by
  rcases jsMul_int p n hproduct with h | ⟨h, hzero⟩
  · rw [h, jsAdd_int _ _ hsum]
  · rw [h, hzero]
    simp [jsAdd, Num.toNumber, addNumbers]

theorem pow_droppedBits_le (fuel m : Nat) (h : 1 ≤ m) : 2 ^ droppedBits fuel m ≤ m := by
  induction fuel generalizing m with
  | zero => simpa [droppedBits] using h
  | succ fuel ih =>
    by_cases hsmall : m < 2 ^ 53
    · rw [droppedBits, if_pos hsmall]
      simpa using h
    · have hhalf : 1 ≤ m / 2 := by omega
      have := ih (m / 2) hhalf
      rw [droppedBits, if_neg hsmall, pow_succ]
      omega

theorem roundMagnitude_pos (m : Nat) (h : 1 ≤ m) : 1 ≤ roundMagnitude m := by
  have hpow := pow_droppedBits_le 1024 m h
  have hpos : 0 < 2 ^ droppedBits 1024 m := Nat.pos_pow_of_pos _ (by decide)
  have hq : 1 ≤ m / 2 ^ droppedBits 1024 m := (Nat.one_le_div_iff hpos).2 hpow
  simp only [roundMagnitude]
  split_ifs
  · exact Nat.one_le_iff_ne_zero.2 (Nat.mul_ne_zero (by omega) (by omega))
  · exact Nat.one_le_iff_ne_zero.2 (Nat.mul_ne_zero (by omega) (by omega))
  · exact Nat.one_le_iff_ne_zero.2 (Nat.mul_ne_zero (by omega) (by omega))

theorem roundDouble_atLeastOne (x : Int) (hone : 1 ≤ x) (hfinite : x < overflowMagnitude) :
    ∃ y : Int, roundDouble x = .int y ∧ 1 ≤ y := by
  have hno : ¬ overflowMagnitude ≤ x.natAbs := by omega
  have hneg : ¬ x < 0 := by omega
  have hpos := roundMagnitude_pos x.natAbs (by omega)
  refine ⟨(roundMagnitude x.natAbs : Int), ?_, by exact_mod_cast hpos⟩
  simp [roundDouble, hno, hneg]

theorem readBack_int (n : Int) : (Num.int n).readBack = .int n := rfl

theorem readBack_readBack (x : Num) : x.readBack.readBack = x.readBack := by
  cases x <;> rfl

theorem readBack_of_isInt (x : Num) (h : x.isInt = true) : x.readBack = x := by
  cases x <;> first | rfl | simp [Num.isInt] at h

theorem isInt_of_atLeastOne (x : Num) (h : x.atLeastOne = true) : x.isInt = true := by
  cases x <;> first | rfl | simp [Num.atLeastOne] at h

theorem eq_int_of_isInt (x : Num) (h : x.isInt = true) : x = .int x.value := by
  cases x <;> first | rfl | simp [Num.isInt] at h

theorem cartItem_readBack_readBack (item : CartItem) :
    item.readBack.readBack = item.readBack := by
  simp [CartItem.readBack, readBack_readBack]

theorem cartItem_readBack_of_isInt (item : CartItem) (h : item.quantity.isInt = true) :
    item.readBack = item := by
  simp [CartItem.readBack, readBack_of_isInt _ h]

theorem map_readBack_of_isInt (cart : List CartItem) (h : IntegerQuantities cart) :
    cart.map CartItem.readBack = cart := by
  induction cart with
  | nil => rfl
  | cons item rest ih =>
    rw [List.map_cons, cartItem_readBack_of_isInt item (h item (by simp)),
      ih (fun x hx => h x (by simp [hx]))]
/-! ## Cart store: lemmas -/

theorem sameLine_iff (productId : String) (variant : Variant) (item : CartItem) :
    sameLine productId variant item = true ↔ Matches productId variant item := by
  simp [sameLine, Matches]

theorem getCart_json (ls : LocalStorage) (items : List CartItem)
    (h : ls.cart = some (.json (.array items))) :
    getCart ls = .ok (items.map CartItem.readBack) := by
  simp [getCart, LocalStorage.getItem, h, JSON.parse, orEmpty]

theorem getCart_unset (ls : LocalStorage) (h : ls.cart = none) : getCart ls = .ok [] := by
  simp [getCart, LocalStorage.getItem, h, JSON.parse, orEmpty]

theorem getCart_normal (ls : LocalStorage) (cart : List CartItem)
    (h : getCart ls = .ok cart) : cart.map CartItem.readBack = cart := by
  cases hc : ls.cart with
  | none =>
    rw [getCart_unset ls hc] at h
    cases h
    rfl
  | some text =>
    cases text with
    | unparsable raw => simp [getCart, LocalStorage.getItem, hc, JSON.parse] at h
    | json value =>
      cases value with
      | null =>
        simp [getCart, LocalStorage.getItem, hc, JSON.parse, orEmpty] at h
        subst h
        rfl
      | array items =>
        rw [getCart_json ls items hc] at h
        cases h
        simp [List.map_map, Function.comp_def, cartItem_readBack_readBack]

theorem saveCart_eq (cart : List CartItem) (w : World) :
    saveCart cart w = .done
      { w with
        localStorage := { cart := some (.json (.array cart)) }
        document := { w.document with
          cartCount := w.document.cartCount.map fun _ =>
            (totalCountOf (cart.map CartItem.readBack)).toText } } := by
  simp [saveCart, updateCartCount, getCart, LocalStorage.getItem, LocalStorage.setItem,
    JSON.parse, orEmpty]

theorem foldl_count (cart : List CartItem) (acc : Int) (hint : IntegerQuantities cart)
    (h : acc.natAbs + quantityMass cart < 2 ^ 53) :
    cart.foldl (fun sum item => jsAdd sum item.quantity) (.int acc)
      = .int (acc + totalQuantity cart) := by
  induction cart generalizing acc with
  | nil => simp [totalQuantity]
  | cons item rest ih =>
    obtain ⟨n, hn⟩ : ∃ n, item.quantity = .int n :=
      ⟨_, eq_int_of_isInt item.quantity (hint item (by simp))⟩
    have hmass : quantityMass (item :: rest) = n.natAbs + quantityMass rest := by
      simp [quantityMass, hn, Num.value]
    rw [hmass] at h
    have hstep : jsAdd (.int acc) item.quantity = .int (acc + n) := by
      rw [hn]
      exact jsAdd_int _ _ (by omega)
    simp only [List.foldl_cons, hstep]
    rw [ih (acc + n) (fun x hx => hint x (by simp [hx])) (by omega)]
    simp [totalQuantity, hn, Num.value, add_assoc]

theorem totalCountOf_exact (cart : List CartItem) (hint : IntegerQuantities cart)
    (h : quantityMass cart < 2 ^ 53) : totalCountOf cart = .int (totalQuantity cart) := by
  have := foldl_count cart 0 hint (by simpa using h)
  simpa [totalCountOf] using this

theorem foldl_value (cart : List CartItem) (acc : Int) (hint : IntegerQuantities cart)
    (h : acc.natAbs + valueMass cart < 2 ^ 53) :
    cart.foldl (fun sum item => jsAdd sum (jsMul (.int item.price) item.quantity)) (.int acc)
      = .int (acc + cartTotal cart) := by
  induction cart generalizing acc with
  | nil => simp [cartTotal]
  | cons item rest ih =>
    obtain ⟨n, hn⟩ : ∃ n, item.quantity = .int n :=
      ⟨_, eq_int_of_isInt item.quantity (hint item (by simp))⟩
    have hmass : valueMass (item :: rest)
        = (item.price * n).natAbs + valueMass rest := by
      simp [valueMass, hn, Num.value]
    rw [hmass] at h
    have hstep : jsAdd (.int acc) (jsMul (.int item.price) item.quantity)
        = .int (acc + item.price * n) := by
      rw [hn]
      exact jsAdd_jsMul_int _ _ _ (by omega) (by omega)
    simp only [List.foldl_cons, hstep]
    rw [ih (acc + item.price * n) (fun x hx => hint x (by simp [hx])) (by omega)]
    simp [cartTotal, hn, Num.value, add_assoc]

theorem totalValueOf_exact (cart : List CartItem) (hint : IntegerQuantities cart)
    (h : valueMass cart < 2 ^ 53) : totalValueOf cart = .int (cartTotal cart) := by
  have := foldl_value cart 0 hint (by simpa using h)
  simpa [totalValueOf] using this

theorem find_sameLine_none (productId : String) (variant : Variant) (cart : List CartItem)
    (h : ∀ item ∈ cart, ¬ Matches productId variant item) :
    cart.find? (sameLine productId variant) = none := by
  rw [List.find?_eq_none]
  intro item hmem hp
  exact h item hmem ((sameLine_iff _ _ _).1 hp)

theorem find_sameLine_some (productId : String) (variant : Variant) (cart : List CartItem)
    (h : ∃ item ∈ cart, Matches productId variant item) :
    ∃ found, cart.find? (sameLine productId variant) = some found := by
  cases hf : cart.find? (sameLine productId variant) with
  | some found => exact ⟨found, rfl⟩
  | none =>
    rw [List.find?_eq_none] at hf
    obtain ⟨item, hmem, hm⟩ := h
    exact absurd ((sameLine_iff _ _ _).2 hm) (hf item hmem)

theorem addToCart_append (productId productName : String) (productPrice quantity : Int)
    (variant : Variant) (w : World) (cart : List CartItem)
    (hcart : getCart w.localStorage = .ok cart)
    (h : ∀ item ∈ cart, ¬ Matches productId variant item) :
    addToCart productId productName productPrice quantity variant w =
      saveCart (cart ++ [{ id := productId, name := productName, price := productPrice,
                           quantity := .int quantity, variant := variant }]) w := by
  simp [addToCart, hcart, find_sameLine_none productId variant cart h]

theorem addToCart_bump (productId productName : String) (productPrice quantity : Int)
    (variant : Variant) (w : World) (cart : List CartItem)
    (hcart : getCart w.localStorage = .ok cart)
    (h : ∃ item ∈ cart, Matches productId variant item) :
    addToCart productId productName productPrice quantity variant w =
      saveCart (bumpFirst (sameLine productId variant) quantity cart) w := by
  obtain ⟨found, hf⟩ := find_sameLine_some productId variant cart h
  simp [addToCart, hcart, hf]

theorem bumpFirst_length (p : CartItem → Bool) (q : Int) (cart : List CartItem) :
    (bumpFirst p q cart).length = cart.length := by
  induction cart with
  | nil => rfl
  | cons item rest ih =>
    by_cases hp : p item <;> simp [bumpFirst, hp, ih]

theorem bumpFirst_spec (p : CartItem → Bool) (q : Int) (cart : List CartItem)
    (h : ∃ item ∈ cart, p item = true) :
    ∃ (i : Nat) (found : CartItem),
      cart[i]? = some found ∧ p found = true ∧
      (∀ j item, j < i → cart[j]? = some item → p item = false) ∧
      (bumpFirst p q cart)[i]?
        = some { found with quantity := jsAdd found.quantity (.int q) } ∧
      (∀ j, j ≠ i → (bumpFirst p q cart)[j]? = cart[j]?) := by
  induction cart with
  | nil => simp at h
  | cons item rest ih =>
    by_cases hp : p item = true
    · refine ⟨0, item, by simp, hp, ?_, by simp [bumpFirst, hp], ?_⟩
      · intro j _ hj; omega
      · intro j hj
        cases j with
        | zero => exact absurd rfl hj
        | succ k => simp [bumpFirst, hp]
    · have hrest : ∃ x ∈ rest, p x = true := by
        obtain ⟨x, hx, hpx⟩ := h
        rcases List.mem_cons.1 hx with rfl | hx
        · exact absurd hpx hp
        · exact ⟨x, hx, hpx⟩
      obtain ⟨i, found, hget, hpf, hbefore, hbump, hother⟩ := ih hrest
      refine ⟨i + 1, found, by simpa using hget, hpf, ?_, by simpa [bumpFirst, hp] using hbump, ?_⟩
      · intro j x hj hx
        cases j with
        | zero =>
          simp at hx
          subst hx
          simpa using hp
        | succ k =>
          exact hbefore k x (by omega) (by simpa using hx)
      · intro j hj
        cases j with
        | zero => simp [bumpFirst, hp]
        | succ k =>
          have := hother k (by omega)
          simpa [bumpFirst, hp] using this

theorem bumpFirst_exact (p : CartItem → Bool) (q : Int) (cart : List CartItem)
    (hint : IntegerQuantities cart) (hmass : quantityMass cart + q.natAbs < 2 ^ 53)
    (h : ∃ item ∈ cart, p item = true) :
    IntegerQuantities (bumpFirst p q cart) ∧
    totalQuantity (bumpFirst p q cart) = totalQuantity cart + q ∧
    quantityMass (bumpFirst p q cart) ≤ quantityMass cart + q.natAbs := by
  induction cart with
  | nil => simp at h
  | cons item rest ih =>
    obtain ⟨n, hn⟩ : ∃ n, item.quantity = .int n :=
      ⟨_, eq_int_of_isInt item.quantity (hint item (by simp))⟩
    have hm : quantityMass (item :: rest) = n.natAbs + quantityMass rest := by
      simp [quantityMass, hn, Num.value]
    have hrestint : IntegerQuantities rest := fun x hx => hint x (by simp [hx])
    have htotal : totalQuantity (item :: rest) = n + totalQuantity rest := by
      simp [totalQuantity, hn, Num.value]
    rw [hm] at hmass
    by_cases hp : p item = true
    · have hsum : jsAdd item.quantity (.int q) = .int (n + q) := by
        rw [hn]
        exact jsAdd_int _ _ (by omega)
      have hb : bumpFirst p q (item :: rest)
          = { item with quantity := .int (n + q) } :: rest := by
        rw [bumpFirst, if_pos hp, hsum]
      rw [hb]
      refine ⟨?_, ?_, ?_⟩
      · intro x hx
        rw [List.mem_cons] at hx
        cases hx with
        | inl hx => rw [hx]; rfl
        | inr hx => exact hrestint x hx
      · rw [htotal]
        simp [totalQuantity, Num.value]
        ring
      · rw [hm]
        simp only [quantityMass, List.map_cons, List.sum_cons, Num.value]
        omega
    · have hrest : ∃ x ∈ rest, p x = true := by
        obtain ⟨x, hx, hpx⟩ := h
        rcases List.mem_cons.1 hx with rfl | hx
        · exact absurd hpx hp
        · exact ⟨x, hx, hpx⟩
      obtain ⟨h1, h2, h3⟩ := ih hrestint (by omega) hrest
      have hb : bumpFirst p q (item :: rest) = item :: bumpFirst p q rest := by
        rw [bumpFirst, if_neg hp]
      rw [hb]
      refine ⟨?_, ?_, ?_⟩
      · intro x hx
        rw [List.mem_cons] at hx
        cases hx with
        | inl hx => rw [hx]; exact hint item (by simp)
        | inr hx => exact h1 x hx
      · rw [htotal]
        have : totalQuantity (item :: bumpFirst p q rest)
            = n + totalQuantity (bumpFirst p q rest) := by
          simp [totalQuantity, hn, Num.value]
        rw [this, h2]
        ring
      · rw [hm]
        have : quantityMass (item :: bumpFirst p q rest)
            = n.natAbs + quantityMass (bumpFirst p q rest) := by
          simp [quantityMass, hn, Num.value]
        rw [this]
        omega

theorem bumpFirst_keys (p : CartItem → Bool) (q : Int) (cart : List CartItem) :
    (bumpFirst p q cart).map (fun item => (item.id, item.variant)) =
      cart.map (fun item => (item.id, item.variant)) := by
  induction cart with
  | nil => rfl
  | cons item rest ih =>
    by_cases hp : p item <;> simp [bumpFirst, hp, ih]

theorem bumpFirst_mem (p : CartItem → Bool) (q : Int) (cart : List CartItem) (b : CartItem)
    (hb : b ∈ bumpFirst p q cart) :
    ∃ a ∈ cart, b.quantity = a.quantity ∨
      (p a = true ∧ b.quantity = jsAdd a.quantity (.int q)) := by
  induction cart with
  | nil => simp [bumpFirst] at hb
  | cons item rest ih =>
    by_cases hp : p item = true
    · rw [bumpFirst, if_pos hp, List.mem_cons] at hb
      cases hb with
      | inl hb => exact ⟨item, by simp, Or.inr ⟨hp, by rw [hb]⟩⟩
      | inr hb => exact ⟨b, by simp [hb], Or.inl rfl⟩
    · rw [bumpFirst, if_neg hp, List.mem_cons] at hb
      cases hb with
      | inl hb => exact ⟨item, by simp, Or.inl (by rw [hb])⟩
      | inr hb =>
        obtain ⟨a, ha, hq⟩ := ih hb
        exact ⟨a, by simp [ha], hq⟩

theorem pairwise_keys (cart : List CartItem) :
    (cart.Pairwise fun a b => ¬ Matches a.id a.variant b) ↔
      (cart.map fun item => (item.id, item.variant)).Pairwise
        fun (a b : String × Variant) =>
          ¬ (b.1 = a.1 ∧ JSON.stringify b.2 = JSON.stringify a.2) := by
  rw [List.pairwise_map]
  rfl
theorem map_readBack_keys (cart : List CartItem) :
    (cart.map CartItem.readBack).map (fun item => (item.id, item.variant)) =
      cart.map (fun item => (item.id, item.variant)) := by
  simp [List.map_map, Function.comp_def, CartItem.readBack]

theorem integerQuantities_of_wellFormed (cart : List CartItem) (h : WellFormed cart) :
    IntegerQuantities cart :=
  fun item hmem => isInt_of_atLeastOne _ (h.1 item hmem)

theorem wellFormed_bumpFirst (p : CartItem → Bool) (q : Int) (cart : List CartItem)
    (hq : 1 ≤ q) (h : WellFormed cart)
    (hfinite : ∀ item ∈ cart, p item = true → item.quantity.value + q < overflowMagnitude) :
    WellFormed ((bumpFirst p q cart).map CartItem.readBack) := by
  refine ⟨?_, ?_⟩
  · intro stored hstored
    obtain ⟨b, hb, rfl⟩ := List.mem_map.1 hstored
    obtain ⟨a, ha, hab⟩ := bumpFirst_mem p q cart b hb
    have hone := h.1 a ha
    obtain ⟨n, hn⟩ : ∃ n, a.quantity = .int n :=
      ⟨_, eq_int_of_isInt _ (isInt_of_atLeastOne _ hone)⟩
    have hn1 : 1 ≤ n := by simpa [hn, Num.atLeastOne] using hone
    rcases hab with hab | ⟨hp, hab⟩
    · simp only [CartItem.readBack, hab, hn, Num.readBack]
      exact hone ▸ (by rw [hn])
    · have hlimit := hfinite a ha hp
      rw [hn] at hlimit
      simp only [Num.value] at hlimit
      obtain ⟨y, hy, hy1⟩ := roundDouble_atLeastOne (n + q) (by omega) hlimit
      have hsum : jsAdd a.quantity (.int q) = .int y := by
        rw [hn]
        simpa [jsAdd, Num.toNumber, addNumbers] using hy
      simp only [CartItem.readBack, hab, hsum, Num.readBack, Num.atLeastOne]
      simpa using hy1
  · rw [pairwise_keys, map_readBack_keys, bumpFirst_keys, ← pairwise_keys]
    exact h.2

theorem wellFormed_append (call : AddCall) (cart : List CartItem)
    (hq : 1 ≤ call.quantity) (h : WellFormed cart)
    (hnone : ∀ item ∈ cart, ¬ Matches call.productId call.variant item) :
    WellFormed (cart ++ [call.item]) := by
  refine ⟨?_, ?_⟩
  · intro b hb
    rcases List.mem_append.1 hb with hb | hb
    · exact h.1 b hb
    · simp only [List.mem_singleton] at hb
      subst hb
      simpa [AddCall.item, Num.atLeastOne] using hq
  · rw [List.pairwise_append]
    refine ⟨h.2, by simp, ?_⟩
    intro a ha b hb
    simp only [List.mem_singleton] at hb
    subst hb
    intro hm
    exact hnone a ha ⟨hm.1.symm, hm.2.symm⟩

theorem addToCart_step (call : AddCall) (w : World) (cart : List CartItem)
    (hcart : getCart w.localStorage = .ok cart) (hwf : WellFormed cart)
    (hq : 1 ≤ call.quantity)
    (hfinite : ∀ item ∈ cart, Matches call.productId call.variant item →
      item.quantity.value + call.quantity < overflowMagnitude) :
    ∃ stored, (call.run w).thrown = none ∧
      getCart (call.run w).world.localStorage = .ok stored ∧
      WellFormed stored ∧ cart.length ≤ stored.length := by
  by_cases h : ∃ item ∈ cart, Matches call.productId call.variant item
  · refine ⟨(bumpFirst (sameLine call.productId call.variant) call.quantity cart).map
      CartItem.readBack, ?_, ?_, ?_, by simp [bumpFirst_length]⟩
    · simp [AddCall.run, addToCart_bump _ _ _ _ _ w cart hcart h, saveCart_eq, Outcome.done]
    · apply getCart_json
      simp [AddCall.run, addToCart_bump _ _ _ _ _ w cart hcart h, saveCart_eq, Outcome.done]
    · exact wellFormed_bumpFirst _ _ _ hq hwf
        (fun item hmem hp => hfinite item hmem ((sameLine_iff _ _ _).1 hp))
  · have hnone : ∀ item ∈ cart, ¬ Matches call.productId call.variant item :=
      fun item hmem hm => h ⟨item, hmem, hm⟩
    have hwf' := wellFormed_append call cart hq hwf hnone
    refine ⟨cart ++ [call.item], ?_, ?_, hwf', by simp⟩
    · simp [AddCall.run, addToCart_append _ _ _ _ _ w cart hcart hnone, saveCart_eq,
        Outcome.done]
    · have hstored : (call.run w).world.localStorage.cart
          = some (.json (.array (cart ++ [call.item]))) := by
        simp [AddCall.run, addToCart_append _ _ _ _ _ w cart hcart hnone, saveCart_eq,
          Outcome.done, AddCall.item]
      rw [getCart_json _ _ hstored,
        map_readBack_of_isInt _ (integerQuantities_of_wellFormed _ hwf')]

theorem staysFinite_iff (call : AddCall) (w : World) (cart : List CartItem)
    (hcart : getCart w.localStorage = .ok cart) :
    call.staysFinite w = true ↔
      ∀ item ∈ cart, Matches call.productId call.variant item →
        item.quantity.value + call.quantity < overflowMagnitude := by
  simp only [AddCall.staysFinite, hcart, List.all_eq_true, Bool.or_eq_true, Bool.not_eq_true',
    decide_eq_true_eq]
  constructor
  · intro h item hmem hm
    rcases h item hmem with hno | hlt
    · rw [(sameLine_iff _ _ _).2 hm] at hno
      exact Bool.noConfusion hno
    · exact hlt
  · intro h item hmem
    by_cases hp : sameLine call.productId call.variant item = true
    · exact Or.inr (h item hmem ((sameLine_iff _ _ _).1 hp))
    · exact Or.inl (by simpa using hp)

theorem addCalls_append (calls more : List AddCall) (w : World) :
    addCalls (calls ++ more) w = addCalls more (addCalls calls w) := by
  induction calls generalizing w with
  | nil => rfl
  | cons call rest ih => simp [addCalls, ih]

theorem admissible_append (calls more : List AddCall) (w : World)
    (h : Admissible (calls ++ more) w) :
    Admissible calls w ∧ Admissible more (addCalls calls w) := by
  induction calls generalizing w with
  | nil => exact ⟨trivial, h⟩
  | cons call rest ih =>
    obtain ⟨h1, h2, h3⟩ := h
    obtain ⟨h4, h5⟩ := ih _ h3
    exact ⟨⟨h1, h2, h4⟩, h5⟩

theorem addCalls_invariant (calls : List AddCall) (w : World) (cart : List CartItem)
    (hcart : getCart w.localStorage = .ok cart) (hwf : WellFormed cart)
    (hadm : Admissible calls w) :
    ∃ later, getCart (addCalls calls w).localStorage = .ok later ∧ WellFormed later ∧
      cart.length ≤ later.length := by
  induction calls generalizing w cart with
  | nil => exact ⟨cart, hcart, hwf, le_refl _⟩
  | cons call rest ih =>
    obtain ⟨hq, hfin, hrest⟩ := hadm
    obtain ⟨stored, _, hstored, hwf', hlen⟩ :=
      addToCart_step call w cart hcart hwf hq ((staysFinite_iff call w cart hcart).1 hfin)
    obtain ⟨later, hlater, hwf'', hlen'⟩ := ih (call.run w).world stored hstored hwf' hrest
    exact ⟨later, hlater, hwf'', le_trans hlen hlen'⟩
theorem bumpFirst_normal (p : CartItem → Bool) (q : Int) (cart : List CartItem)
    (hnormal : cart.map CartItem.readBack = cart)
    (hint : ∀ item ∈ cart, p item = true → (jsAdd item.quantity (.int q)).isInt = true) :
    (bumpFirst p q cart).map CartItem.readBack = bumpFirst p q cart := by
  induction cart with
  | nil => rfl
  | cons item rest ih =>
    rw [List.map_cons, List.cons.injEq] at hnormal
    by_cases hp : p item = true
    · rw [bumpFirst, if_pos hp, List.map_cons, hnormal.2]
      congr 1
      exact cartItem_readBack_of_isInt _ (hint item (by simp) hp)
    · rw [bumpFirst, if_neg hp, List.map_cons, hnormal.1,
        ih hnormal.2 (fun x hx hpx => hint x (by simp [hx]) hpx)]

theorem quantities_append (cart : List CartItem) (item : CartItem) :
    totalQuantity (cart ++ [item]) = totalQuantity cart + item.quantity.value ∧
    quantityMass (cart ++ [item]) = quantityMass cart + item.quantity.value.natAbs := by
  simp [totalQuantity, quantityMass]

/-! ## Cart store: the claims -/

/-- C1 (amended): if the stored cart holds a line item whose id and serialized
variant are those of the call, and the quantity of such an item is an integer
whose sum with the quantity of the call is below 2^53 in magnitude, `addToCart`
stores a cart with the same number of line items in which the first such line
item has its quantity increased by exactly the quantity of the call and every
other line item, and the other fields of that one, are unchanged; adding the
same id and variant twice to an empty cart stores one line item with twice the
quantity, when that is below 2^53 in magnitude. -/
theorem addToCart_merges (productId productName : String) (productPrice quantity : Int)
    (variant : Variant) (w : World) :
    (∀ cart, getCart w.localStorage = .ok cart →
      (∃ item ∈ cart, Matches productId variant item) →
      (∀ item ∈ cart, Matches productId variant item →
        item.quantity.isInt = true ∧ (item.quantity.value + quantity).natAbs < 2 ^ 53) →
      ∃ (i : Nat) (found : CartItem) (stored : List CartItem),
        cart[i]? = some found ∧ Matches productId variant found ∧
        (∀ j item, j < i → cart[j]? = some item → ¬ Matches productId variant item) ∧
        (addToCart productId productName productPrice quantity variant w).thrown = none ∧
        (addToCart productId productName productPrice quantity variant w).world.localStorage.cart
          = some (.json (.array stored)) ∧
        getCart (addToCart productId productName productPrice quantity variant
          w).world.localStorage = .ok stored ∧
        stored.length = cart.length ∧
        stored[i]? = some { found with quantity := .int (found.quantity.value + quantity) } ∧
        (∀ j, j ≠ i → stored[j]? = cart[j]?)) ∧
    (getCart w.localStorage = .ok [] → (2 * quantity).natAbs < 2 ^ 53 →
      ((addToCart productId productName productPrice quantity variant w).andThen
        (addToCart productId productName productPrice quantity variant)).thrown = none ∧
      ((addToCart productId productName productPrice quantity variant w).andThen
        (addToCart productId productName productPrice quantity variant)).world.localStorage.cart
        = some (.json (.array [{ id := productId, name := productName, price := productPrice,
                                 quantity := .int (2 * quantity), variant := variant }]))) := by
  constructor
  · intro cart hcart h hsafe
    have hp : ∃ item ∈ cart, sameLine productId variant item = true := by
      obtain ⟨item, hmem, hm⟩ := h
      exact ⟨item, hmem, (sameLine_iff _ _ _).2 hm⟩
    have hsum : ∀ item ∈ cart, sameLine productId variant item = true →
        jsAdd item.quantity (.int quantity) = .int (item.quantity.value + quantity) := by
      intro item hmem hpi
      obtain ⟨hint, hrange⟩ := hsafe item hmem ((sameLine_iff _ _ _).1 hpi)
      obtain ⟨n, hn⟩ : ∃ n, item.quantity = .int n := ⟨_, eq_int_of_isInt _ hint⟩
      rw [hn] at hrange ⊢
      exact jsAdd_int _ _ hrange
    obtain ⟨i, found, hget, hfound, hbefore, hbump, hother⟩ :=
      bumpFirst_spec (sameLine productId variant) quantity cart hp
    have hmem : found ∈ cart := List.getElem?_mem hget
    have hstored : (addToCart productId productName productPrice quantity variant
        w).world.localStorage.cart
          = some (.json (.array (bumpFirst (sameLine productId variant) quantity cart))) := by
      simp [addToCart_bump _ _ _ _ _ w cart hcart h, saveCart_eq, Outcome.done]
    refine ⟨i, found, bumpFirst (sameLine productId variant) quantity cart, hget,
      (sameLine_iff _ _ _).1 hfound, ?_, ?_, hstored, ?_, bumpFirst_length _ _ _, ?_, hother⟩
    · intro j item hj hitem hm
      have := hbefore j item hj hitem
      rw [(sameLine_iff _ _ _).2 hm] at this
      exact Bool.noConfusion this
    · simp [addToCart_bump _ _ _ _ _ w cart hcart h, saveCart_eq, Outcome.done]
    · rw [getCart_json _ _ hstored, bumpFirst_normal _ _ _ (getCart_normal _ _ hcart)]
      intro item hmem' hpi
      rw [hsum item hmem' hpi]
      rfl
    · rw [hbump, hsum found hmem hfound]
  · intro hcart hrange
    have hfirst := addToCart_append productId productName productPrice quantity variant w []
      hcart (by simp)
    simp only [List.nil_append] at hfirst
    rw [hfirst, saveCart_eq]
    simp only [Outcome.andThen, Outcome.done]
    rw [addToCart_bump productId productName productPrice quantity variant _
      [⟨productId, productName, productPrice, .int quantity, variant⟩]
      (getCart_json _ _ rfl)
      ⟨⟨productId, productName, productPrice, .int quantity, variant⟩, by simp, rfl, rfl⟩]
    have hdouble : jsAdd (.int quantity) (.int quantity) = .int (2 * quantity) := by
      rw [two_mul] at hrange ⊢
      exact jsAdd_int _ _ hrange
    simp [saveCart_eq, Outcome.done, bumpFirst, sameLine, hdouble]

/-- C1 (as stated) fails: with a stored quantity of 2^53 and a call that adds
one, the double sum is 2^53 again, so the stored line item keeps its quantity
instead of having it increased by one. -/
theorem addToCart_merge_rounds :
    getCart (sampleWorld "page-product-detail" [("id", "p1")]
      (some (.json (.array [roundingItem])))).localStorage = .ok [roundingItem] ∧
    Matches "p1" [("Size", "S")] roundingItem ∧
    roundingItem.quantity = .int 9007199254740992 ∧
    (addToCart "p1" "Tee" 1000 1 [("Size", "S")] (sampleWorld "page-product-detail"
      [("id", "p1")] (some (.json (.array [roundingItem]))))).world.localStorage.cart
      = some (.json (.array [roundingItem])) ∧
    roundingItem.quantity ≠ .int (9007199254740992 + 1) :=
  ⟨rfl, by decide, rfl, rfl, by decide⟩

/-- C2: if no line item of the stored cart has both the id and the serialized
variant of the call, `addToCart` stores the previous cart, unchanged and in the
same order, followed by one new last line item built from the arguments. -/
theorem addToCart_appends (productId productName : String) (productPrice quantity : Int)
    (variant : Variant) (w : World) (cart : List CartItem)
    (hcart : getCart w.localStorage = .ok cart)
    (hnone : ∀ item ∈ cart, ¬ Matches productId variant item) :
    (addToCart productId productName productPrice quantity variant w).thrown = none ∧
    (addToCart productId productName productPrice quantity variant w).world.localStorage.cart
      = some (.json (.array (cart ++
          [{ id := productId, name := productName, price := productPrice,
             quantity := .int quantity, variant := variant }]))) ∧
    getCart (addToCart productId productName productPrice quantity variant
      w).world.localStorage
      = .ok (cart ++
          [{ id := productId, name := productName, price := productPrice,
             quantity := .int quantity, variant := variant }]) := by
  have hstored : (addToCart productId productName productPrice quantity variant
      w).world.localStorage.cart
        = some (.json (.array (cart ++
            [{ id := productId, name := productName, price := productPrice,
               quantity := .int quantity, variant := variant }]))) := by
    simp [addToCart_append _ _ _ _ _ w cart hcart hnone, saveCart_eq, Outcome.done]
  refine ⟨?_, hstored, ?_⟩
  · simp [addToCart_append _ _ _ _ _ w cart hcart hnone, saveCart_eq, Outcome.done]
  · rw [getCart_json _ _ hstored, List.map_append, getCart_normal _ _ hcart]
    rfl

/-- C3 (amended): `getCart` returns the empty sequence when the `cart` key is
unset or holds the text `null`, raises `SyntaxError` when the stored text is
not valid JSON, and returns the stored sequence of line items otherwise, as
JSON reads it back. -/
theorem getCart_cases (ls : LocalStorage) :
    (ls.cart = none → getCart ls = .ok []) ∧
    (ls.cart = some (.json .null) → getCart ls = .ok []) ∧
    (∀ raw, ls.cart = some (.unparsable raw) → getCart ls = .error .SyntaxError) ∧
    (∀ items, ls.cart = some (.json (.array items)) →
      getCart ls = .ok (items.map CartItem.readBack) ∧
      (IntegerQuantities items → getCart ls = .ok items)) := by
  refine ⟨?_, ?_, ?_, ?_⟩
  · intro h; simp [getCart, LocalStorage.getItem, h, JSON.parse, orEmpty]
  · intro h; simp [getCart, LocalStorage.getItem, h, JSON.parse, orEmpty]
  · intro raw h; simp [getCart, LocalStorage.getItem, h, JSON.parse]
  · intro items h
    refine ⟨getCart_json ls items h, fun hint => ?_⟩
    rw [getCart_json ls items h, map_readBack_of_isInt items hint]

/-- C3 (as stated) fails: with text under the `cart` key that is not valid
JSON, `getCart` raises `SyntaxError` and returns no sequence. -/
theorem getCart_unparsable_throws :
    getCart { cart := some (.unparsable "\x7bid:") } = .error .SyntaxError ∧
    getCart { cart := some (.unparsable "\x7bid:") } ≠ .ok [] := by
  constructor
  · rfl
  · intro h; cases h

/-- C9 (amended): when every stored quantity is an integer and the magnitudes
of the stored quantities and of the quantity of the call add up to less than
2^53, every cart-count indicator holds after `addToCart` the sum of the
quantities of the newly stored cart, and that sum is the sum before the call
plus the quantity of the call, for a merge as for an append. -/
theorem addToCart_count (productId productName : String) (productPrice quantity : Int)
    (variant : Variant) (w : World) (cart : List CartItem)
    (hcart : getCart w.localStorage = .ok cart)
    (hint : IntegerQuantities cart)
    (hrange : quantityMass cart + quantity.natAbs < 2 ^ 53) :
    ∃ stored,
      (addToCart productId productName productPrice quantity variant w).thrown = none ∧
      getCart (addToCart productId productName productPrice quantity variant w).world.localStorage
        = .ok stored ∧
      (addToCart productId productName productPrice quantity variant w).world.document.cartCount
        = w.document.cartCount.map (fun _ => toString (totalQuantity stored)) ∧
      totalQuantity stored = totalQuantity cart + quantity := by
  have key : ∀ stored : List CartItem,
      addToCart productId productName productPrice quantity variant w = saveCart stored w →
      IntegerQuantities stored → totalQuantity stored = totalQuantity cart + quantity →
      quantityMass stored ≤ quantityMass cart + quantity.natAbs →
      (addToCart productId productName productPrice quantity variant w).thrown = none ∧
      getCart (addToCart productId productName productPrice quantity variant
        w).world.localStorage = .ok stored ∧
      (addToCart productId productName productPrice quantity variant w).world.document.cartCount
        = w.document.cartCount.map (fun _ => toString (totalQuantity stored)) ∧
      totalQuantity stored = totalQuantity cart + quantity := by
    intro stored hrun hstoredint htotal hmass
    have hnormal := map_readBack_of_isInt stored hstoredint
    have hcount : totalCountOf stored = .int (totalQuantity stored) :=
      totalCountOf_exact stored hstoredint (by omega)
    refine ⟨?_, ?_, ?_, htotal⟩
    · simp [hrun, saveCart_eq, Outcome.done]
    · have hs : (addToCart productId productName productPrice quantity variant
          w).world.localStorage.cart = some (.json (.array stored)) := by
        simp [hrun, saveCart_eq, Outcome.done]
      rw [getCart_json _ _ hs, hnormal]
    · simp [hrun, saveCart_eq, Outcome.done, hnormal, hcount, Num.toText]
  by_cases h : ∃ item ∈ cart, Matches productId variant item
  · have hp : ∃ item ∈ cart, sameLine productId variant item = true := by
      obtain ⟨item, hmem, hm⟩ := h
      exact ⟨item, hmem, (sameLine_iff _ _ _).2 hm⟩
    obtain ⟨h1, h2, h3⟩ :=
      bumpFirst_exact (sameLine productId variant) quantity cart hint hrange hp
    exact ⟨_, key _ (addToCart_bump _ _ _ _ _ w cart hcart h) h1 h2 h3⟩
  · have hnone : ∀ item ∈ cart, ¬ Matches productId variant item :=
      fun item hmem hm => h ⟨item, hmem, hm⟩
    refine ⟨_, key _ (addToCart_append _ _ _ _ _ w cart hcart hnone) ?_ ?_ ?_⟩
    · intro x hx
      rcases List.mem_append.1 hx with hx | hx
      · exact hint x hx
      · simp only [List.mem_singleton] at hx
        subst hx
        rfl
    · rw [(quantities_append _ _).1]
      rfl
    · rw [(quantities_append _ _).2]
      exact le_refl _

/-- C9 (as stated) fails: with a stored quantity of 2^53 and a call that adds
one, both indicators show 9007199254740992 afterwards, which is the sum before
the call and not that sum plus one. -/
theorem addToCart_count_rounds :
    getCart (sampleWorld "page-product-detail" [("id", "p1")]
      (some (.json (.array [roundingItem])))).localStorage = .ok [roundingItem] ∧
    totalQuantity [roundingItem] = 9007199254740992 ∧
    (addToCart "p1" "Tee" 1000 1 [("Size", "S")] (sampleWorld "page-product-detail"
      [("id", "p1")] (some (.json (.array [roundingItem]))))).world.document.cartCount
      = ["9007199254740992", "9007199254740992"] ∧
    toString (totalQuantity [roundingItem] + 1) = "9007199254740993" :=
  ⟨rfl, by decide, by decide, by decide⟩

/-- C10 (amended): `addToCart` with a quantity of at least one keeps a cart
well-formed (every quantity an integer of at least one, no two line items with
the same id and serialized variant) and never shortens it, provided the sum it
makes stays below 2^1024 - 2^970, where a double is still finite; hence every
cart reached from the unset cart by such calls is well-formed, and the number
of line items never decreases along the calls. -/
theorem addToCart_wellFormed :
    (∀ (productId productName : String) (productPrice quantity : Int) (variant : Variant)
        (w : World) (cart : List CartItem),
      getCart w.localStorage = .ok cart → WellFormed cart → 1 ≤ quantity →
      (∀ item ∈ cart, Matches productId variant item →
        item.quantity.value + quantity < overflowMagnitude) →
      ∃ stored,
        (addToCart productId productName productPrice quantity variant w).thrown = none ∧
        getCart (addToCart productId productName productPrice quantity variant
          w).world.localStorage = .ok stored ∧
        WellFormed stored ∧ cart.length ≤ stored.length) ∧
    (∀ (calls more : List AddCall) (w : World),
      w.localStorage.cart = none → Admissible (calls ++ more) w →
      ∃ cart later,
        getCart (addCalls calls w).localStorage = .ok cart ∧ WellFormed cart ∧
        getCart (addCalls (calls ++ more) w).localStorage = .ok later ∧ WellFormed later ∧
        cart.length ≤ later.length) := by
  constructor
  · intro productId productName productPrice quantity variant w cart hcart hwf hq hfinite
    exact addToCart_step ⟨productId, productName, productPrice, quantity, variant⟩ w cart
      hcart hwf hq hfinite
  · intro calls more w hunset hadm
    have hempty : getCart w.localStorage = .ok [] := getCart_unset _ hunset
    have hwf : WellFormed [] := ⟨by simp, by simp⟩
    obtain ⟨hfirst, hsecond⟩ := admissible_append calls more w hadm
    obtain ⟨cart, hcart, hwfc, _⟩ := addCalls_invariant calls w [] hempty hwf hfirst
    obtain ⟨later, hlater, hwfl, hlen⟩ :=
      addCalls_invariant more (addCalls calls w) cart hcart hwfc hsecond
    exact ⟨cart, later, hcart, hwfc, by rw [addCalls_append]; exact hlater, hwfl, hlen⟩

set_option maxRecDepth 100000 in
/-- C10 (as stated) fails: with a stored quantity of 2^1023 and a call that adds
2^1023, both integers of at least one, the double sum is infinite, JSON stores
`null` for it, and the cart read back has a quantity that is no integer of at
least one. -/
theorem addToCart_overflow_not_wellFormed :
    getCart (sampleWorld "page-product-detail" [("id", "p1")]
      (some (.json (.array [overflowItem])))).localStorage = .ok [overflowItem] ∧
    WellFormed [overflowItem] ∧
    (1 : Int) ≤ (2 ^ 256) ^ 3 * 2 ^ 255 ∧
    getCart (addToCart "p1" "Tee" 1000 ((2 ^ 256) ^ 3 * 2 ^ 255) [("Size", "S")]
      (sampleWorld "page-product-detail" [("id", "p1")]
        (some (.json (.array [overflowItem]))))).world.localStorage
      = .ok [{ overflowItem with quantity := .null }] ∧
    ¬ WellFormed [{ overflowItem with quantity := .null }] :=
  ⟨rfl, by decide, by decide, rfl, by decide⟩
/-! ## Document: lemmas -/

theorem lookup_cons_self (k v : String) (rest : List (String × String)) :
    List.lookup k ((k, v) :: rest) = some v := by
  simp [List.lookup]

theorem lookup_cons_ne (id k v : String) (rest : List (String × String)) (h : id ≠ k) :
    List.lookup id ((k, v) :: rest) = List.lookup id rest := by
  have hb : (id == k) = false := by simpa using h
  simp [List.lookup, hb]

theorem setFirst_cons_self (k c v : String) (rest : List (String × String)) :
    setFirst k c ((k, v) :: rest) = (k, c) :: rest := by
  simp [setFirst]

theorem setFirst_cons_ne (id k c v : String) (rest : List (String × String)) (h : id ≠ k) :
    setFirst id c ((k, v) :: rest) = (k, v) :: setFirst id c rest := by
  simp [setFirst, h]

theorem lookup_setFirst (id id' c : String) (l : List (String × String)) :
    (setFirst id c l).lookup id' =
      if id' = id then (l.lookup id).map (fun _ => c) else l.lookup id' := by
  induction l with
  | nil => simp [setFirst]
  | cons kv rest ih =>
    obtain ⟨k, v⟩ := kv
    by_cases h1 : id = k
    · subst h1
      rw [setFirst_cons_self]
      by_cases h2 : id' = id
      · subst h2; simp [lookup_cons_self]
      · simp [lookup_cons_ne _ _ _ _ h2, h2]
    · rw [setFirst_cons_ne _ _ _ _ _ h1]
      by_cases h2 : id' = id
      · subst h2
        simp [lookup_cons_ne _ _ _ _ h1, ih]
      · by_cases h3 : id' = k
        · subst h3; simp [lookup_cons_self, h2]
        · simp [lookup_cons_ne _ _ _ _ h3, h2, ih]

theorem setFirst_setFirst (id c c' : String) (l : List (String × String)) :
    setFirst id c (setFirst id c' l) = setFirst id c l := by
  induction l with
  | nil => rfl
  | cons kv rest ih =>
    obtain ⟨k, v⟩ := kv
    by_cases h1 : id = k
    · subst h1; simp [setFirst]
    · simp [setFirst, h1, ih]

theorem setFirst_of_lookup (id c : String) (l : List (String × String))
    (h : l.lookup id = some c) : setFirst id c l = l := by
  induction l with
  | nil => rfl
  | cons kv rest ih =>
    obtain ⟨k, v⟩ := kv
    by_cases h1 : id = k
    · subst h1
      rw [lookup_cons_self] at h
      simp only [Option.some.injEq] at h
      rw [setFirst_cons_self, h]
    · rw [lookup_cons_ne _ _ _ _ h1] at h
      rw [setFirst_cons_ne _ _ _ _ _ h1, ih h]

theorem setFirst_of_absent (id c : String) (l : List (String × String))
    (h : l.lookup id = none) : setFirst id c l = l := by
  induction l with
  | nil => rfl
  | cons kv rest ih =>
    obtain ⟨k, v⟩ := kv
    by_cases h1 : id = k
    · subst h1
      rw [lookup_cons_self] at h
      cases h
    · rw [lookup_cons_ne _ _ _ _ h1] at h
      rw [setFirst_cons_ne _ _ _ _ _ h1, ih h]

theorem setFirst_comm (a b x y : String) (hab : a ≠ b) (l : List (String × String)) :
    setFirst a x (setFirst b y l) = setFirst b y (setFirst a x l) := by
  induction l with
  | nil => rfl
  | cons kv rest ih =>
    obtain ⟨k, v⟩ := kv
    by_cases h1 : a = k
    · subst h1
      have : ¬ b = a := fun h => hab h.symm
      simp [setFirst, this]
    · by_cases h2 : b = k
      · subst h2; simp [setFirst, h1]
      · simp [setFirst, h1, h2, ih]

theorem getElementById_setContents (d : Document) (id id' c : String) :
    (d.setContents id c).getElementById id' =
      if id' = id then (d.getElementById id).map (fun _ => c) else d.getElementById id' := by
  simp [Document.setContents, Document.getElementById, lookup_setFirst]

theorem setContents_setContents (d : Document) (id c c' : String) :
    (d.setContents id c').setContents id c = d.setContents id c := by
  simp [Document.setContents, setFirst_setFirst]

theorem setContents_of_lookup (d : Document) (id c : String)
    (h : d.getElementById id = some c) : d.setContents id c = d := by
  simp only [Document.setContents, Document.getElementById] at *
  rw [setFirst_of_lookup id c d.elements h]

theorem setContents_of_absent (d : Document) (id c : String)
    (h : d.getElementById id = none) : d.setContents id c = d := by
  simp only [Document.setContents, Document.getElementById] at *
  rw [setFirst_of_absent id c d.elements h]

theorem setInnerHTML_some (id html old : String) (w : World)
    (h : w.document.getElementById id = some old) :
    setInnerHTML id html w = .done { w with document := w.document.setContents id html } := by
  simp [setInnerHTML, h]

/-! ## Product detail page -/

theorem find_id_none (products : List Product) (productId : Option String)
    (h : ∀ p ∈ products, some p.id ≠ productId) :
    products.find? (fun p => some p.id == productId) = none := by
  rw [List.find?_eq_none]
  intro p hp hb
  exact h p hp (by simpa using hb)

theorem find_id_some (products : List Product) (productId : Option String)
    (h : ∃ p ∈ products, some p.id = productId) :
    ∃ product ∈ products, some product.id = productId ∧
      products.find? (fun p => some p.id == productId) = some product := by
  cases hf : products.find? (fun p => some p.id == productId) with
  | some product =>
    refine ⟨product, List.mem_of_find?_eq_some hf, ?_, rfl⟩
    have := List.find?_some hf
    simpa using this
  | none =>
    rw [List.find?_eq_none] at hf
    obtain ⟨p, hp, hid⟩ := h
    exact absurd (by simpa using hid) (hf p hp)

/-- C6: when no product of the catalog has the requested id (a missing `id`
parameter included), `loadProductDetailPage` puts the not-found message in the
detail container, emits no event, registers no listener and leaves the stored
cart unchanged; when the id is in the catalog it emits exactly one event, a
`view_item` carrying the id, name, price and category of the product found. -/
theorem loadProductDetailPage_events (products : List Product) (w : World) (old : String)
    (hcontainer : w.document.getElementById "product-detail-main" = some old) :
    ((∀ p ∈ products, some p.id ≠ w.document.param "id") →
      (loadProductDetailPage products w).thrown = none ∧
      (loadProductDetailPage products w).world.document.getElementById "product-detail-main"
        = some "<h1>상품을 찾을 수 없습니다.</h1>" ∧
      (loadProductDetailPage products w).world.console = w.console ∧
      (loadProductDetailPage products w).world.listeners = w.listeners ∧
      (loadProductDetailPage products w).world.localStorage = w.localStorage) ∧
    ((∃ p ∈ products, some p.id = w.document.param "id") →
      ∃ product ∈ products, some product.id = w.document.param "id" ∧
        (loadProductDetailPage products w).thrown = none ∧
        (loadProductDetailPage products w).world.console = w.console ++
          [{ event := "view_item",
             parameters :=
              [("currency", .scalar (.str "KRW")), ("value", .scalar (.num (.int product.price))),
               ("items", .items [[("item_id", .str product.id),
                                  ("item_name", .str product.name),
                                  ("price", .num (.int product.price)),
                                  ("item_category", .str product.category)]])] }] ∧
        (loadProductDetailPage products w).world.localStorage = w.localStorage) := by
  constructor
  · intro h
    simp [loadProductDetailPage, find_id_none products _ h,
      setInnerHTML_some _ _ old w hcontainer, Outcome.done, notFoundHtml,
      getElementById_setContents, hcontainer]
  · intro h
    obtain ⟨product, hmem, hid, hfind⟩ := find_id_some products _ h
    refine ⟨product, hmem, hid, ?_⟩
    simp [loadProductDetailPage, hfind, setInnerHTML_some _ _ old w hcontainer, Outcome.done,
      Outcome.andThen, fireGA4Event, addEventListener, viewItemParameters]

/-! ## Cart page -/

theorem renderCartItems_outcome (products : List Product) (cart : List CartItem)
    (totalValue : Num) (w : World) (old : String)
    (h : w.document.getElementById "cart-items-container" = some old) :
    (renderCartItems products cart totalValue w).2 =
      { world := { w with document :=
          w.document.setContents "cart-items-container" (old ++ (renderedCart products cart).1) }
        thrown := (renderedCart products cart).2 } := by
  induction cart generalizing totalValue w old with
  | nil =>
    simp [renderCartItems, renderedCart, Outcome.done, setContents_of_lookup _ _ _ h]
  | cons item rest ih =>
    cases hf : products.find? (fun p => p.id == item.id) with
    | none =>
      simp [renderCartItems, renderedCart, hf, Outcome.throw, setContents_of_lookup _ _ _ h]
    | some product =>
      have hnext : (w.document.appendContents "cart-items-container"
          (cartItemHtml product item)).getElementById "cart-items-container"
            = some (old ++ cartItemHtml product item) := by
        simp [Document.appendContents, getElementById_setContents, h]
      simp only [renderCartItems, renderedCart, hf]
      rw [ih _ _ _ hnext]
      simp [Document.appendContents, setContents_setContents, h, String.append_assoc]

theorem renderCartItems_total (products : List Product) (cart : List CartItem)
    (totalValue : Num) (w : World)
    (h : ∀ item ∈ cart, ∃ p ∈ products, p.id = item.id) :
    (renderCartItems products cart totalValue w).1 =
      cart.foldl (fun sum item => jsAdd sum (jsMul (.int item.price) item.quantity))
        totalValue := by
  induction cart generalizing totalValue w with
  | nil => simp [renderCartItems]
  | cons item rest ih =>
    cases hf : products.find? (fun p => p.id == item.id) with
    | none =>
      rw [List.find?_eq_none] at hf
      obtain ⟨p, hp, hid⟩ := h item (by simp)
      exact absurd (by simpa using hid) (hf p hp)
    | some product =>
      simp only [renderCartItems, hf, List.foldl_cons]
      rw [ih _ _ (fun x hx => h x (by simp [hx]))]

theorem renderCartItems_totalValueOf (products : List Product) (cart : List CartItem)
    (w : World) (h : ∀ item ∈ cart, ∃ p ∈ products, p.id = item.id) :
    (renderCartItems products cart (.int 0) w).1 = totalValueOf cart := by
  rw [renderCartItems_total products cart _ w h]
  rfl

theorem renderedCart_ok (products : List Product) (cart : List CartItem)
    (h : ∀ item ∈ cart, ∃ p ∈ products, p.id = item.id) :
    (renderedCart products cart).2 = none := by
  induction cart with
  | nil => rfl
  | cons item rest ih =>
    cases hf : products.find? (fun p => p.id == item.id) with
    | none =>
      rw [List.find?_eq_none] at hf
      obtain ⟨p, hp, hid⟩ := h item (by simp)
      exact absurd (by simpa using hid) (hf p hp)
    | some product =>
      simp only [renderedCart, hf]
      exact ih (fun x hx => h x (by simp [hx]))

theorem renderedCart_throws (products : List Product) (cart : List CartItem)
    (h : ∃ item ∈ cart, ∀ p ∈ products, p.id ≠ item.id) :
    (renderedCart products cart).2 = some .TypeError := by
  induction cart with
  | nil => simp at h
  | cons item rest ih =>
    cases hf : products.find? (fun p => p.id == item.id) with
    | none => simp [renderedCart, hf]
    | some product =>
      simp only [renderedCart, hf]
      apply ih
      obtain ⟨x, hx, hnone⟩ := h
      rcases List.mem_cons.1 hx with hx | hx
      · subst hx
        have hmem := List.mem_of_find?_eq_some hf
        have hid := List.find?_some hf
        exact absurd (by simpa using hid) (hnone product hmem)
      · exact ⟨x, hx, hnone⟩

/-- C4 (amended): for a stored cart with line items, all of catalog products,
whose quantities are integers and whose amounts price times quantity add up in
magnitude to less than 2^53, `loadCartPage` shows in the cart summary the sum
over the line items of price times quantity and sends that sum as the value of
`view_cart` and, on the click, of `begin_checkout`; for the empty cart it shows
no total and sends no event, and for a line item whose id is not in the
catalog it throws before any total is shown or sent. -/
theorem loadCartPage_total (products : List Product) (w : World) (cart : List CartItem)
    (container summary : String)
    (hcart : getCart w.localStorage = .ok cart)
    (hcontainer : w.document.getElementById "cart-items-container" = some container)
    (hsummary : w.document.getElementById "cart-summary" = some summary) :
    (cart ≠ [] → (∀ item ∈ cart, ∃ p ∈ products, p.id = item.id) →
      IntegerQuantities cart → valueMass cart < 2 ^ 53 →
      (loadCartPage products w).thrown = none ∧
      (loadCartPage products w).world.document.getElementById "cart-summary"
        = some ("\n        <h2>총 주문 금액: " ++ toLocaleString (cartTotal cart)
            ++ "원</h2>\n        <a href=\"checkout.html\" id=\"begin-checkout-btn\" class=\"btn\">주문하기</a>\n    ") ∧
      (loadCartPage products w).world.console = w.console ++
        [{ event := "view_cart",
           parameters := [("currency", .scalar (.str "KRW")),
                          ("value", .scalar (.num (.int (cartTotal cart)))),
                          ("items", .items (viewCartItems cart))] }] ∧
      (loadCartPage products w).world.listeners = w.listeners ++
        [{ target := "begin-checkout-btn", type := "click",
           handler := .beginCheckout (.int (cartTotal cart)) cart }] ∧
      ∀ (input : UserInput) (later : World),
        ((Listener.beginCheckout (.int (cartTotal cart)) cart).run input later).thrown = none ∧
        ((Listener.beginCheckout (.int (cartTotal cart)) cart).run input later).world.console =
          later.console ++
            [{ event := "begin_checkout",
               parameters := [("currency", .scalar (.str "KRW")),
                              ("value", .scalar (.num (.int (cartTotal cart)))),
                              ("items", .cartItems cart)] }]) ∧
    (cart = [] →
      (loadCartPage products w).thrown = none ∧
      (loadCartPage products w).world.document.getElementById "cart-summary" = some "" ∧
      (loadCartPage products w).world.console = w.console ∧
      (loadCartPage products w).world.listeners = w.listeners) ∧
    ((∃ item ∈ cart, ∀ p ∈ products, p.id ≠ item.id) →
      (loadCartPage products w).thrown = some .TypeError ∧
      (loadCartPage products w).world.document.getElementById "cart-summary" = some summary ∧
      (loadCartPage products w).world.console = w.console ∧
      (loadCartPage products w).world.listeners = w.listeners) := by
  have hne : ("cart-summary" : String) ≠ "cart-items-container" := by decide
  have hcleared : ({ w with document := w.document.setContents "cart-items-container" "" }
      : World).document.getElementById "cart-items-container" = some "" := by
    simp [getElementById_setContents, hcontainer]
  refine ⟨?_, ?_, ?_⟩
  · intro hnonempty hall hint hrange
    have hlen : cart.length ≠ 0 := by simpa using hnonempty
    have htotal : ∀ w' : World, (renderCartItems products cart (.int 0) w').1
        = .int (cartTotal cart) := by
      intro w'
      rw [renderCartItems_totalValueOf products cart w' hall,
        totalValueOf_exact cart hint hrange]
    simp only [loadCartPage, hcart, hlen, if_false, setInnerHTML_some _ _ _ w hcontainer,
      Outcome.andThen, Outcome.done, renderCartItems_outcome products cart (.int 0) _ "" hcleared,
      renderedCart_ok products cart hall, htotal]
    simp [setInnerHTML, getElementById_setContents, hne, hsummary, Outcome.done, fireGA4Event,
      addEventListener, Listener.run, onBeginCheckoutClick, cartSummaryHtml,
      Num.toLocaleString]
  · intro hempty
    subst hempty
    simp [loadCartPage, hcart, Outcome.andThen, Outcome.done, setInnerHTML, hcontainer,
      getElementById_setContents, hne, hsummary]
  · intro hmissing
    have hlen : cart.length ≠ 0 := by
      obtain ⟨item, hmem, _⟩ := hmissing
      intro h0
      rw [List.length_eq_zero] at h0
      subst h0
      simp at hmem
    simp only [loadCartPage, hcart, hlen, if_false, setInnerHTML_some _ _ _ w hcontainer,
      Outcome.andThen, Outcome.done, renderCartItems_outcome products cart (.int 0) _ "" hcleared,
      renderedCart_throws products cart hmissing]
    simp [getElementById_setContents, hne, hsummary]

set_option maxRecDepth 100000 in
/-- C4 (as stated) fails: for one line item of price 94906267 and quantity
94906267 the sum of price times quantity is 9007199515875289, and the cart page
shows and sends the double product 9007199515875288. -/
theorem loadCartPage_total_rounds :
    getCart (sampleWorld "page-cart" [] (some (.json (.array [roundedValueItem])))).localStorage
      = .ok [roundedValueItem] ∧
    cartTotal [roundedValueItem] = 9007199515875289 ∧
    (loadCartPage sampleCatalog (sampleWorld "page-cart" []
      (some (.json (.array [roundedValueItem]))))).world.document.getElementById "cart-summary"
      = some ("\n        <h2>총 주문 금액: 9,007,199,515,875,288원</h2>\n        <a href=\"checkout.html\" id=\"begin-checkout-btn\" class=\"btn\">주문하기</a>\n    ") ∧
    (loadCartPage sampleCatalog (sampleWorld "page-cart" []
      (some (.json (.array [roundedValueItem]))))).world.console
      = [{ event := "view_cart",
           parameters := [("currency", .scalar (.str "KRW")),
                          ("value", .scalar (.num (.int 9007199515875288))),
                          ("items", .items (viewCartItems [roundedValueItem]))] }] :=
  ⟨rfl, by decide, by decide, by decide⟩

/-! ## Checkout page -/

/-- C5 (amended): when the quantities of the stored cart are integers and the
amounts price times quantity and the shipping cost 3000 add up in magnitude to
less than 2^53, `loadCheckoutPage` shows as payment total the sum over the line
items of price times quantity plus the fixed shipping cost 3000, and its
listeners send that amount as the value of `add_shipping_info`,
`add_payment_info` and `purchase`, the last with `shipping` 3000; for one line
item of price 1000 and quantity 2 the item total is 2000 and the payment total
5000. -/
theorem loadCheckoutPage_total (w : World) (cart : List CartItem) (old shipping payment button :
    String)
    (hcart : getCart w.localStorage = .ok cart)
    (hint : IntegerQuantities cart)
    (hrange : valueMass cart + 3000 < 2 ^ 53)
    (hsummary : w.document.getElementById "order-summary" = some old)
    (hshipping : w.document.getElementById "shipping-form" = some shipping)
    (hpayment : w.document.getElementById "payment-form" = some payment)
    (hbutton : w.document.getElementById "purchase-button" = some button) :
    (loadCheckoutPage w).thrown = none ∧
    (loadCheckoutPage w).world.document.getElementById "order-summary"
      = some (old ++ ("\n        <div class=\"order-summary-item\"><span>상품 금액</span><span>"
          ++ toLocaleString (cartTotal cart)
          ++ "원</span></div>\n        <div class=\"order-summary-item\"><span>배송비</span><span>"
          ++ toLocaleString 3000
          ++ "원</span></div>\n        <div class=\"order-summary-item\" style=\"font-weight:bold;\"><span>총 결제 금액</span><span>"
          ++ toLocaleString (cartTotal cart + 3000) ++ "원</span></div>\n    ")) ∧
    (loadCheckoutPage w).world.listeners = w.listeners ++
      [{ target := "shipping-form", type := "submit",
         handler := .addShippingInfo (.int (cartTotal cart)) (.int 3000) cart },
       { target := "payment-form", type := "submit",
         handler := .addPaymentInfo (.int (cartTotal cart)) (.int 3000) cart },
       { target := "purchase-button", type := "click",
         handler := .purchase (.int (cartTotal cart)) (.int 3000) cart }] ∧
    (∀ (input : UserInput) (later : World),
      ((Listener.addShippingInfo (.int (cartTotal cart)) (.int 3000) cart).run input
        later).thrown = none ∧
      ((Listener.addShippingInfo (.int (cartTotal cart)) (.int 3000) cart).run input
        later).world.console =
        later.console ++
          [{ event := "add_shipping_info",
             parameters := [("currency", .scalar (.str "KRW")),
                            ("value", .scalar (.num (.int (cartTotal cart + 3000)))),
                            ("shipping_tier", .scalar (.str "Standard Shipping")),
                            ("items", .cartItems cart)] }]) ∧
    (∀ (input : UserInput) (later : World) (method : String),
      later.document.paymentMethod = some method →
      ((Listener.addPaymentInfo (.int (cartTotal cart)) (.int 3000) cart).run input
        later).thrown = none ∧
      ((Listener.addPaymentInfo (.int (cartTotal cart)) (.int 3000) cart).run input
        later).world.console =
        later.console ++
          [{ event := "add_payment_info",
             parameters := [("currency", .scalar (.str "KRW")),
                            ("value", .scalar (.num (.int (cartTotal cart + 3000)))),
                            ("payment_type", .scalar (.str method)),
                            ("items", .cartItems cart)] }]) ∧
    (∀ (input : UserInput) (later : World),
      ((Listener.purchase (.int (cartTotal cart)) (.int 3000) cart).run input
        later).thrown = none ∧
      ((Listener.purchase (.int (cartTotal cart)) (.int 3000) cart).run input
        later).world.console =
        later.console ++
          [{ event := "purchase",
             parameters := [("transaction_id", .scalar (.str ("T-" ++ toString input.now))),
                            ("value", .scalar (.num (.int (cartTotal cart + 3000)))),
                            ("shipping", .scalar (.num (.int 3000))),
                            ("currency", .scalar (.str "KRW")),
                            ("items", .cartItems cart)] }]) ∧
    (∀ item, cart = [item] → item.price = 1000 → item.quantity = .int 2 →
      cartTotal cart = 2000 ∧ cartTotal cart + 3000 = 5000) := by
  have h1 : ("shipping-form" : String) ≠ "order-summary" := by decide
  have h2 : ("payment-form" : String) ≠ "order-summary" := by decide
  have h3 : ("purchase-button" : String) ≠ "order-summary" := by decide
  have htotal : totalValueOf cart = .int (cartTotal cart) :=
    totalValueOf_exact cart hint (by omega)
  have hsum : jsAdd (.int (cartTotal cart)) (.int 3000) = .int (cartTotal cart + 3000) := by
    have hbound : (cartTotal cart).natAbs ≤ valueMass cart := by
      clear htotal hcart hint hrange
      induction cart with
      | nil => simp [cartTotal, valueMass]
      | cons item rest ih =>
        simp only [cartTotal, valueMass, List.map_cons, List.sum_cons] at ih ⊢
        omega
    exact jsAdd_int _ _ (by omega)
  refine ⟨?_, ?_, ?_, ?_, ?_, ?_, ?_⟩
  · simp [loadCheckoutPage, hcart, hsummary, htotal, listen, Outcome.andThen, Outcome.done,
      Document.appendContents, getElementById_setContents, h1, h2, h3, hshipping, hpayment,
      hbutton, addEventListener]
  · simp [loadCheckoutPage, hcart, hsummary, htotal, listen, Outcome.andThen, Outcome.done,
      Document.appendContents, getElementById_setContents, h1, h2, h3, hshipping, hpayment,
      hbutton, addEventListener, orderSummaryHtml, hsum, Num.toLocaleString]
  · simp [loadCheckoutPage, hcart, hsummary, htotal, listen, Outcome.andThen, Outcome.done,
      Document.appendContents, getElementById_setContents, h1, h2, h3, hshipping, hpayment,
      hbutton, addEventListener]
  · intro input later
    simp [Listener.run, onShippingSubmit, Outcome.done, fireGA4Event, alert, hsum]
  · intro input later method hmethod
    simp [Listener.run, onPaymentSubmit, Outcome.done, fireGA4Event, alert, hmethod, hsum]
  · intro input later
    simp [Listener.run, onPurchaseClick, Outcome.done, fireGA4Event, hsum]
  · intro item hitem hprice hquantity
    subst hitem
    simp [cartTotal, hprice, hquantity, Num.value]

set_option maxRecDepth 100000 in
/-- C5 (as stated) fails: for one line item of price 94906267 and quantity
94906267 the sum of price times quantity plus 3000 is 9007199515878289, and the
checkout page shows 9007199515878288 and its purchase listener sends it. -/
theorem loadCheckoutPage_total_rounds :
    getCart (sampleWorld "page-checkout" []
      (some (.json (.array [roundedValueItem])))).localStorage = .ok [roundedValueItem] ∧
    cartTotal [roundedValueItem] + 3000 = 9007199515878289 ∧
    (loadCheckoutPage (sampleWorld "page-checkout" []
      (some (.json (.array [roundedValueItem]))))).world.document.getElementById "order-summary"
      = some ("<h2>주문 요약</h2>" ++ "\n        <div class=\"order-summary-item\"><span>상품 금액</span><span>9,007,199,515,875,288원</span></div>\n        <div class=\"order-summary-item\"><span>배송비</span><span>3,000원</span></div>\n        <div class=\"order-summary-item\" style=\"font-weight:bold;\"><span>총 결제 금액</span><span>9,007,199,515,878,288원</span></div>\n    ") ∧
    (loadCheckoutPage (sampleWorld "page-checkout" []
      (some (.json (.array [roundedValueItem]))))).world.listeners
      = [{ target := "shipping-form", type := "submit",
           handler := .addShippingInfo (.int 9007199515875288) (.int 3000) [roundedValueItem] },
         { target := "payment-form", type := "submit",
           handler := .addPaymentInfo (.int 9007199515875288) (.int 3000) [roundedValueItem] },
         { target := "purchase-button", type := "click",
           handler := .purchase (.int 9007199515875288) (.int 3000) [roundedValueItem] }] ∧
    jsAdd (.int 9007199515875288) (.int 3000) = .int 9007199515878288 :=
  ⟨rfl, by decide, by decide, by decide, by decide⟩
/-! ## Rendering twice -/

theorem setContents_comm (d : Document) (a b x y : String) (hab : a ≠ b) :
    (d.setContents b y).setContents a x = (d.setContents a x).setContents b y := by
  simp [Document.setContents, setFirst_comm a b x y hab]

theorem setInnerHTML_document (id html : String) (w : World) :
    (setInnerHTML id html w).world.document = w.document.setContents id html := by
  cases h : w.document.getElementById id with
  | none => simp [setInnerHTML, h, Outcome.throw, setContents_of_absent _ _ _ h]
  | some old => simp [setInnerHTML, h, Outcome.done]

theorem setInnerHTML_frame (id html : String) (w : World) :
    (setInnerHTML id html w).world.localStorage = w.localStorage := by
  cases h : w.document.getElementById id with
  | none => simp [setInnerHTML, h, Outcome.throw]
  | some old => simp [setInnerHTML, h, Outcome.done]

theorem listen_document (id type : String) (handler : Listener) (w : World) :
    (listen id type handler w).world.document = w.document := by
  cases h : w.document.getElementById id with
  | none => simp [listen, h, Outcome.throw]
  | some old => simp [listen, h, Outcome.done, addEventListener]

theorem listen_frame (id type : String) (handler : Listener) (w : World) :
    (listen id type handler w).world.localStorage = w.localStorage := by
  cases h : w.document.getElementById id with
  | none => simp [listen, h, Outcome.throw]
  | some old => simp [listen, h, Outcome.done, addEventListener]

theorem foldl_cards (products : List Product) (id : String) (w : World) (old : String)
    (h : w.document.getElementById id = some old) :
    products.foldl (fun (w : World) product =>
      { w with document := w.document.appendContents id (productCard product) }) w =
      { w with document := w.document.setContents id (old ++ cardsHtml products) } := by
  induction products generalizing w old with
  | nil => simp [cardsHtml, setContents_of_lookup _ _ _ h]
  | cons product rest ih =>
    have hnext : (w.document.appendContents id (productCard product)).getElementById id
        = some (old ++ productCard product) := by
      simp [Document.appendContents, getElementById_setContents, h]
    simp only [List.foldl_cons]
    rw [ih _ _ hnext]
    simp [Document.appendContents, setContents_setContents, h, cardsHtml, String.append_assoc]

theorem selectListeners_document (products : List Product) (itemListId itemListName : String)
    (position : Nat) (rendered : List Product) (w : World) :
    (selectListeners products itemListId itemListName position rendered w).document
      = w.document ∧
    (selectListeners products itemListId itemListName position rendered w).localStorage
      = w.localStorage := by
  induction rendered generalizing position w with
  | nil => simp [selectListeners]
  | cons product rest ih =>
    simp only [selectListeners]
    rw [(ih _ _).1, (ih _ _).2]
    simp [addEventListener]

theorem renderProducts_document (products : List Product) (containerId itemListId
    itemListName : String) (w : World) :
    (renderProducts products containerId itemListId itemListName w).world.document
      = w.document.setContents containerId (cardsHtml products) := by
  cases h : w.document.getElementById containerId with
  | none => simp [renderProducts, h, Outcome.done, setContents_of_absent _ _ _ h]
  | some old =>
    have hcleared : (w.document.setContents containerId "").getElementById containerId
        = some "" := by
      simp [getElementById_setContents, h]
    simp only [renderProducts, h, Outcome.done, fireGA4Event,
      (selectListeners_document _ _ _ _ _ _).1]
    rw [foldl_cards products containerId _ "" hcleared]
    simp [setContents_setContents]

theorem renderProducts_thrown (products : List Product) (containerId itemListId
    itemListName : String) (w : World) :
    (renderProducts products containerId itemListId itemListName w).thrown = none := by
  cases h : w.document.getElementById containerId with
  | none => simp [renderProducts, h, Outcome.done]
  | some old => simp [renderProducts, h, Outcome.done]

theorem renderProducts_twice (products : List Product) (containerId itemListId
    itemListName : String) (w : World) :
    (renderProducts products containerId itemListId itemListName
      (renderProducts products containerId itemListId itemListName w).world).world.document
      = (renderProducts products containerId itemListId itemListName w).world.document := by
  rw [renderProducts_document, renderProducts_document, setContents_setContents]

theorem loadHomePage_document (products : List Product) (w : World) :
    (loadHomePage products w).world.document
      = w.document.setContents "recommended-products" (cardsHtml (products.take 4)) := by
  simp [loadHomePage, Outcome.andThen, renderProducts_thrown, listen_document,
    renderProducts_document]

theorem loadProductsPage_document (products : List Product) (w : World) :
    (loadProductsPage products w).world.document
      = w.document.setContents "all-products" (cardsHtml products) := by
  simp [loadProductsPage, renderProducts_document]

theorem loadProductDetailPage_document (products : List Product) (w : World) :
    (loadProductDetailPage products w).world.document
      = w.document.setContents "product-detail-main"
          (match products.find? (fun p => some p.id == w.document.param "id") with
           | some product => productDetailHtml product (optionsHtml product.options)
           | none => notFoundHtml) := by
  cases hf : products.find? (fun p => some p.id == w.document.param "id") with
  | none => simp [loadProductDetailPage, hf, setInnerHTML_document]
  | some product =>
    cases h : w.document.getElementById "product-detail-main" with
    | none =>
      simp [loadProductDetailPage, hf, setInnerHTML, h, Outcome.andThen, Outcome.throw,
        setContents_of_absent _ _ _ h]
    | some old =>
      simp [loadProductDetailPage, hf, setInnerHTML, h, Outcome.andThen, Outcome.done,
        fireGA4Event, addEventListener]

theorem loadConfirmationPage_document (w : World) :
    (loadConfirmationPage w).world.document
      = w.document.setContents "transaction-id" ((w.document.param "tid").getD "") := by
  simp [loadConfirmationPage, setInnerHTML_document]

theorem param_setContents (d : Document) (id c name : String) :
    (d.setContents id c).param name = d.param name := by
  simp [Document.setContents, Document.param]

theorem andThen_done (w : World) (next : World → Outcome) :
    ({ world := w, thrown := none } : Outcome).andThen next = next w := by
  simp [Outcome.andThen]

theorem andThen_setInnerHTML_document (id html : String) (w : World) (next : World → Outcome)
    (hdoc : ∀ w, (next w).world.document = w.document) :
    ((setInnerHTML id html w).andThen next).world.document
      = w.document.setContents id html := by
  cases h : w.document.getElementById id with
  | none =>
    simp [setInnerHTML, h, Outcome.andThen, Outcome.throw, setContents_of_absent _ _ _ h]
  | some old => simp [setInnerHTML, h, Outcome.andThen, Outcome.done, hdoc]

theorem andThen_setInnerHTML_storage (id html : String) (w : World) (next : World → Outcome)
    (hls : ∀ w, (next w).world.localStorage = w.localStorage) :
    ((setInnerHTML id html w).andThen next).world.localStorage = w.localStorage := by
  cases h : w.document.getElementById id with
  | none => simp [setInnerHTML, h, Outcome.andThen, Outcome.throw]
  | some old => simp [setInnerHTML, h, Outcome.andThen, Outcome.done, hls]

theorem renderedCart_all (products : List Product) (cart : List CartItem)
    (h : (renderedCart products cart).2 = none) :
    ∀ item ∈ cart, ∃ p ∈ products, p.id = item.id := by
  induction cart with
  | nil => simp
  | cons item rest ih =>
    cases hf : products.find? (fun p => p.id == item.id) with
    | none => simp [renderedCart, hf] at h
    | some product =>
      simp only [renderedCart, hf] at h
      intro x hx
      rcases List.mem_cons.1 hx with hx | hx
      · subst hx
        exact ⟨product, List.mem_of_find?_eq_some hf, by simpa using List.find?_some hf⟩
      · exact ih h x hx

theorem loadCartPage_document (products : List Product) (w : World) :
    (loadCartPage products w).world.document
      = cartPageDocument products w.localStorage w.document ∧
    (loadCartPage products w).world.localStorage = w.localStorage := by
  cases hcart : getCart w.localStorage with
  | error e => simp [loadCartPage, cartPageDocument, hcart, Outcome.throw]
  | ok cart =>
    cases hc : w.document.getElementById "cart-items-container" with
    | none =>
      by_cases hlen : cart.length = 0
      · simp [loadCartPage, cartPageDocument, hcart, hc, hlen, setInnerHTML, Outcome.andThen,
          Outcome.throw]
      · simp [loadCartPage, cartPageDocument, hcart, hc, hlen, setInnerHTML, Outcome.andThen,
          Outcome.throw]
    | some old =>
      by_cases hlen : cart.length = 0
      · simp [loadCartPage, cartPageDocument, hcart, hc, hlen, setInnerHTML_some _ _ _ w hc,
          Outcome.andThen, Outcome.done, setInnerHTML_document, setInnerHTML_frame]
      · have hcleared : ({ w with document := w.document.setContents "cart-items-container" "" }
            : World).document.getElementById "cart-items-container" = some "" := by
          simp [getElementById_setContents, hc]
        cases hr : (renderedCart products cart).2 with
        | some e =>
          simp [loadCartPage, cartPageDocument, hcart, hc, hlen, setInnerHTML_some _ _ _ w hc,
            Outcome.andThen, Outcome.done,
            renderCartItems_outcome products cart (.int 0) _ "" hcleared, hr,
            setContents_setContents]
        | none =>
          have hall := renderedCart_all products cart hr
          simp only [loadCartPage, hcart, hlen, if_false, setInnerHTML_some _ _ _ w hc,
            Outcome.done, andThen_done,
            renderCartItems_outcome products cart (.int 0) _ "" hcleared, hr,
            renderCartItems_totalValueOf products cart _ hall]
          constructor
          · rw [andThen_setInnerHTML_document _ _ _ _
              (fun w => by simp [fireGA4Event, addEventListener])]
            simp [cartPageDocument, hcart, hc, hlen, hr, setContents_setContents]
          · rw [andThen_setInnerHTML_storage _ _ _ _
              (fun w => by simp [fireGA4Event, addEventListener])]

theorem cartPageDocument_twice (products : List Product) (ls : LocalStorage) (d : Document) :
    cartPageDocument products ls (cartPageDocument products ls d)
      = cartPageDocument products ls d := by
  have hne : ("cart-items-container" : String) ≠ "cart-summary" := by decide
  have hne' : ("cart-summary" : String) ≠ "cart-items-container" := by decide
  cases hcart : getCart ls with
  | error e => simp [cartPageDocument, hcart]
  | ok cart =>
    cases hc : d.getElementById "cart-items-container" with
    | none => simp [cartPageDocument, hcart, hc]
    | some old =>
      by_cases hlen : cart.length = 0
      · simp only [cartPageDocument, hcart, hc, hlen, if_true, getElementById_setContents,
          hne, if_false, Option.map_some']
        rw [setContents_comm _ "cart-items-container" "cart-summary" _ _ hne,
          setContents_setContents, setContents_setContents]
      · cases hr : (renderedCart products cart).2 with
        | some e =>
          simp [cartPageDocument, hcart, hc, hlen, hr, getElementById_setContents,
            setContents_setContents]
        | none =>
          simp only [cartPageDocument, hcart, hc, hlen, hr, if_false,
            getElementById_setContents, hne, Option.map_some', if_true]
          rw [setContents_comm _ "cart-items-container" "cart-summary" _ _ hne,
            setContents_setContents, setContents_setContents]

theorem andThen_listen_document (id type : String) (handler : Listener) (w : World)
    (next : World → Outcome) (hdoc : ∀ w, (next w).world.document = w.document) :
    ((listen id type handler w).andThen next).world.document = w.document := by
  cases h : w.document.getElementById id with
  | none => simp [listen, h, Outcome.andThen, Outcome.throw]
  | some old => simp [listen, h, Outcome.andThen, Outcome.done, hdoc, addEventListener]

theorem andThen_listen_storage (id type : String) (handler : Listener) (w : World)
    (next : World → Outcome) (hls : ∀ w, (next w).world.localStorage = w.localStorage) :
    ((listen id type handler w).andThen next).world.localStorage = w.localStorage := by
  cases h : w.document.getElementById id with
  | none => simp [listen, h, Outcome.andThen, Outcome.throw]
  | some old => simp [listen, h, Outcome.andThen, Outcome.done, hls, addEventListener]

theorem loadCheckoutPage_document (w : World) :
    (loadCheckoutPage w).world.document = checkoutDocument w.localStorage w.document ∧
    (loadCheckoutPage w).world.localStorage = w.localStorage := by
  cases hcart : getCart w.localStorage with
  | error e => simp [loadCheckoutPage, checkoutDocument, hcart, Outcome.throw]
  | ok cart =>
    cases hs : w.document.getElementById "order-summary" with
    | none => simp [loadCheckoutPage, checkoutDocument, hcart, hs, Outcome.throw]
    | some old =>
      simp only [loadCheckoutPage, checkoutDocument, hcart, hs]
      constructor
      · rw [andThen_listen_document _ _ _ _ _ (fun w =>
          andThen_listen_document _ _ _ _ _ (fun w => listen_document _ _ _ _))]
        simp [Document.appendContents, hs]
      · rw [andThen_listen_storage _ _ _ _ _ (fun w =>
          andThen_listen_storage _ _ _ _ _ (fun w => listen_frame _ _ _ _))]

theorem loadCheckoutPage_twice (w : World) (cart : List CartItem) (old : String)
    (hcart : getCart w.localStorage = .ok cart)
    (hsummary : w.document.getElementById "order-summary" = some old) :
    (loadCheckoutPage w).world.document.getElementById "order-summary"
      = some (old ++ orderSummaryHtml (totalValueOf cart) (.int 3000)) ∧
    (loadCheckoutPage (loadCheckoutPage w).world).world.document.getElementById "order-summary"
      = some (old ++ orderSummaryHtml (totalValueOf cart) (.int 3000)
          ++ orderSummaryHtml (totalValueOf cart) (.int 3000)) := by
  have hfirst : (loadCheckoutPage w).world.document.getElementById "order-summary"
      = some (old ++ orderSummaryHtml (totalValueOf cart) (.int 3000)) := by
    rw [(loadCheckoutPage_document w).1]
    simp [checkoutDocument, hcart, hsummary, getElementById_setContents]
  refine ⟨hfirst, ?_⟩
  rw [(loadCheckoutPage_document _).1, (loadCheckoutPage_document w).2]
  simp only [checkoutDocument, hcart, hfirst]
  simp [getElementById_setContents, hfirst]

/-! ## The count indicators after a page load -/

theorem cartCount_setContents (d : Document) (id c : String) :
    (d.setContents id c).cartCount = d.cartCount ∧
    (d.setContents id c).bodyId = d.bodyId := by
  simp [Document.setContents]

theorem cartPageDocument_count (products : List Product) (ls : LocalStorage) (d : Document) :
    (cartPageDocument products ls d).cartCount = d.cartCount := by
  unfold cartPageDocument
  split
  · rfl
  · split
    · rfl
    · split
      · simp [Document.setContents]
      · split <;> simp [Document.setContents]

theorem checkoutDocument_count (ls : LocalStorage) (d : Document) :
    (checkoutDocument ls d).cartCount = d.cartCount := by
  unfold checkoutDocument
  split
  · rfl
  · split
    · rfl
    · simp [Document.setContents]

theorem onDOMContentLoaded_count (fetched : Except JSError (List Product)) (w : World)
    (cart : List CartItem) (hcart : getCart w.localStorage = .ok cart) :
    (onDOMContentLoaded fetched w).thrown = none ∧
    (onDOMContentLoaded fetched w).world.document.cartCount
      = w.document.cartCount.map (fun _ => (totalCountOf cart).toText) := by
  cases fetched with
  | error e =>
    simp [onDOMContentLoaded, updateCartCount, hcart, Outcome.andThen, Outcome.done,
      ]
  | ok products =>
    simp only [onDOMContentLoaded, updateCartCount, hcart, Outcome.done, andThen_done,
      ]
    split_ifs <;>
      simp [loadHomePage_document, loadProductsPage_document, loadProductDetailPage_document,
        (loadCartPage_document _ _).1, (loadCheckoutPage_document _).1,
        loadConfirmationPage_document, cartCount_setContents, cartPageDocument_count,
        checkoutDocument_count]

/-! ## Pages: the remaining claims -/

/-- C7: the click handler that `loadCheckoutPage` registers on the purchase
button removes the `cart` key, so that on the next page load `getCart` returns
the empty sequence and `updateCartCount` writes 0 to every cart-count
indicator; the `purchase` event of that click carries the line items of the
cart read when the checkout page was loaded. -/
theorem purchase_clears_cart (w : World) (cart : List CartItem)
    (old shipping payment button : String)
    (hcart : getCart w.localStorage = .ok cart)
    (hsummary : w.document.getElementById "order-summary" = some old)
    (hshipping : w.document.getElementById "shipping-form" = some shipping)
    (hpayment : w.document.getElementById "payment-form" = some payment)
    (hbutton : w.document.getElementById "purchase-button" = some button) :
    (loadCheckoutPage w).thrown = none ∧
    (loadCheckoutPage w).world.listeners.filter (fun r => r.target == "purchase-button")
      = w.listeners.filter (fun r => r.target == "purchase-button") ++
        [{ target := "purchase-button", type := "click",
           handler := .purchase (totalValueOf cart) (.int 3000) cart }] ∧
    ∀ (input : UserInput) (later : World),
      ((Listener.purchase (totalValueOf cart) (.int 3000) cart).run input later).thrown = none ∧
      ((Listener.purchase (totalValueOf cart) (.int 3000) cart).run input later).world.localStorage.cart
        = none ∧
      ((Listener.purchase (totalValueOf cart) (.int 3000) cart).run input later).world.console =
        later.console ++
          [{ event := "purchase",
             parameters := [("transaction_id", .scalar (.str ("T-" ++ toString input.now))),
                            ("value", .scalar (.num (jsAdd (totalValueOf cart) (.int 3000)))),
                            ("shipping", .scalar (.num (.int 3000))),
                            ("currency", .scalar (.str "KRW")),
                            ("items", .cartItems cart)] }] ∧
      ∀ (next : World) (fetched : Except JSError (List Product)),
        next.localStorage
          = ((Listener.purchase (totalValueOf cart) (.int 3000) cart).run input later).world.localStorage →
        getCart next.localStorage = .ok [] ∧
        (updateCartCount next).thrown = none ∧
        (updateCartCount next).world.document.cartCount
          = next.document.cartCount.map (fun _ => "0") ∧
        (onDOMContentLoaded fetched next).thrown = none ∧
        (onDOMContentLoaded fetched next).world.document.cartCount
          = next.document.cartCount.map (fun _ => "0") := by
  have h1 : ("shipping-form" : String) ≠ "order-summary" := by decide
  have h2 : ("payment-form" : String) ≠ "order-summary" := by decide
  have h3 : ("purchase-button" : String) ≠ "order-summary" := by decide
  refine ⟨?_, ?_, ?_⟩
  · simp [loadCheckoutPage, hcart, hsummary, listen, Outcome.andThen, Outcome.done,
      Document.appendContents, getElementById_setContents, h1, h2, h3, hshipping, hpayment,
      hbutton, addEventListener]
  · simp [loadCheckoutPage, hcart, hsummary, listen, Outcome.andThen, Outcome.done,
      Document.appendContents, getElementById_setContents, h1, h2, h3, hshipping, hpayment,
      hbutton, addEventListener, List.filter_cons]
  · intro input later
    refine ⟨?_, ?_, ?_, ?_⟩
    · simp [Listener.run, onPurchaseClick, Outcome.done]
    · simp [Listener.run, onPurchaseClick, Outcome.done, LocalStorage.removeItem]
    · simp [Listener.run, onPurchaseClick, Outcome.done, fireGA4Event]
    · intro next fetched hnext
      have hstore : next.localStorage.cart = none := by
        rw [hnext]
        simp [Listener.run, onPurchaseClick, Outcome.done, LocalStorage.removeItem]
      have hempty : getCart next.localStorage = .ok [] := by
        simp [getCart, LocalStorage.getItem, hstore, JSON.parse, orEmpty]
      have hzero : (totalCountOf []).toText = "0" := by decide
      have hload := onDOMContentLoaded_count fetched next [] hempty
      rw [hzero] at hload
      refine ⟨hempty, ?_, ?_, hload.1, hload.2⟩
      · simp [updateCartCount, hempty, Outcome.done]
      · simp only [updateCartCount, hempty, Outcome.done, hzero]

/-- C8 (amended): `renderProducts` (for the home and the listing page),
`loadProductDetailPage`, `loadCartPage` and `loadConfirmationPage` leave, when
invoked twice in a row, the document and so the contents of their container
as one invocation leaves it; `loadCheckoutPage` adds its summary block after
the contents the order summary already has, so a second invocation leaves the
block twice. -/
theorem rendering_twice :
    (∀ (products : List Product) (containerId itemListId itemListName : String) (w : World),
      (renderProducts products containerId itemListId itemListName
        (renderProducts products containerId itemListId itemListName w).world).world.document
        = (renderProducts products containerId itemListId itemListName w).world.document) ∧
    (∀ (products : List Product) (w : World),
      (loadHomePage products (loadHomePage products w).world).world.document
        = (loadHomePage products w).world.document) ∧
    (∀ (products : List Product) (w : World),
      (loadProductsPage products (loadProductsPage products w).world).world.document
        = (loadProductsPage products w).world.document) ∧
    (∀ (products : List Product) (w : World),
      (loadProductDetailPage products (loadProductDetailPage products w).world).world.document
        = (loadProductDetailPage products w).world.document) ∧
    (∀ (products : List Product) (w : World),
      (loadCartPage products (loadCartPage products w).world).world.document
        = (loadCartPage products w).world.document) ∧
    (∀ (w : World),
      (loadConfirmationPage (loadConfirmationPage w).world).world.document
        = (loadConfirmationPage w).world.document) ∧
    (∀ (w : World) (cart : List CartItem) (old : String),
      getCart w.localStorage = .ok cart →
      w.document.getElementById "order-summary" = some old →
      (loadCheckoutPage w).world.document.getElementById "order-summary"
        = some (old ++ orderSummaryHtml (totalValueOf cart) (.int 3000)) ∧
      (loadCheckoutPage (loadCheckoutPage w).world).world.document.getElementById
        "order-summary"
        = some (old ++ orderSummaryHtml (totalValueOf cart) (.int 3000)
            ++ orderSummaryHtml (totalValueOf cart) (.int 3000))) := by
  refine ⟨renderProducts_twice, ?_, ?_, ?_, ?_, ?_, loadCheckoutPage_twice⟩
  · intro products w
    rw [loadHomePage_document, loadHomePage_document, setContents_setContents]
  · intro products w
    rw [loadProductsPage_document, loadProductsPage_document, setContents_setContents]
  · intro products w
    rw [loadProductDetailPage_document, loadProductDetailPage_document, param_setContents,
      setContents_setContents]
  · intro products w
    rw [(loadCartPage_document _ _).1, (loadCartPage_document products w).2,
      (loadCartPage_document products w).1, cartPageDocument_twice]
  · intro w
    rw [loadConfirmationPage_document, loadConfirmationPage_document, param_setContents,
      setContents_setContents]

set_option maxRecDepth 200000 in
/-- C8 (as stated) fails for `loadCheckoutPage`: on the sample checkout page a
second invocation leaves the order summary with other contents than the
first. -/
theorem loadCheckoutPage_not_idempotent :
    (loadCheckoutPage (loadCheckoutPage (sampleWorld "page-checkout" [] none)).world
      ).world.document.getElementById "order-summary"
      ≠ (loadCheckoutPage (sampleWorld "page-checkout" [] none)
          ).world.document.getElementById "order-summary" := by
  decide

/-! ## Instances of the claims on the sample pages -/

/-- Instance of C1 (amended): the stored cart holds `p1` in sizes M and S, a
call adds three of `p1` in size S. -/
theorem addToCart_merges_witness :
    getCart (sampleWorld "page-product-detail" [("id", "p1")]
      (some (.json (.array sampleCart)))).localStorage = .ok sampleCart ∧
    (∃ item ∈ sampleCart, Matches "p1" [("Size", "S")] item) ∧
    (∀ item ∈ sampleCart, Matches "p1" [("Size", "S")] item →
      item.quantity.isInt = true ∧ (item.quantity.value + 3).natAbs < 2 ^ 53) ∧
    ∃ (i : Nat) (found : CartItem) (stored : List CartItem),
      sampleCart[i]? = some found ∧ Matches "p1" [("Size", "S")] found ∧
      (∀ j item, j < i → sampleCart[j]? = some item → ¬ Matches "p1" [("Size", "S")] item) ∧
      (addToCart "p1" "Tee" 1000 3 [("Size", "S")] (sampleWorld "page-product-detail"
        [("id", "p1")] (some (.json (.array sampleCart))))).thrown = none ∧
      (addToCart "p1" "Tee" 1000 3 [("Size", "S")] (sampleWorld "page-product-detail"
        [("id", "p1")] (some (.json (.array sampleCart))))).world.localStorage.cart
        = some (.json (.array stored)) ∧
      getCart (addToCart "p1" "Tee" 1000 3 [("Size", "S")] (sampleWorld "page-product-detail"
        [("id", "p1")] (some (.json (.array sampleCart))))).world.localStorage = .ok stored ∧
      stored.length = sampleCart.length ∧
      stored[i]? = some { found with quantity := .int (found.quantity.value + 3) } ∧
      (∀ j, j ≠ i → stored[j]? = sampleCart[j]?) :=
  ⟨rfl, ⟨sampleItemS, by decide, by decide⟩, by decide,
    (addToCart_merges "p1" "Tee" 1000 3 [("Size", "S")] (sampleWorld "page-product-detail"
      [("id", "p1")] (some (.json (.array sampleCart))))).1 sampleCart rfl
      ⟨sampleItemS, by decide, by decide⟩ (by decide)⟩

/-- Instance of C2: the stored cart holds `p1` in size M only, a call adds `p1`
in size S. -/
theorem addToCart_appends_witness :
    getCart (sampleWorld "page-product-detail" [("id", "p1")]
      (some (.json (.array [sampleItemM])))).localStorage = .ok [sampleItemM] ∧
    (∀ item ∈ [sampleItemM], ¬ Matches "p1" [("Size", "S")] item) ∧
    (addToCart "p1" "Tee" 1000 2 [("Size", "S")] (sampleWorld "page-product-detail"
      [("id", "p1")] (some (.json (.array [sampleItemM]))))).thrown = none ∧
    (addToCart "p1" "Tee" 1000 2 [("Size", "S")] (sampleWorld "page-product-detail"
      [("id", "p1")] (some (.json (.array [sampleItemM]))))).world.localStorage.cart
      = some (.json (.array ([sampleItemM] ++
          [{ id := "p1", name := "Tee", price := 1000, quantity := .int 2,
             variant := [("Size", "S")] }]))) ∧
    getCart (addToCart "p1" "Tee" 1000 2 [("Size", "S")] (sampleWorld "page-product-detail"
      [("id", "p1")] (some (.json (.array [sampleItemM]))))).world.localStorage
      = .ok ([sampleItemM] ++
          [{ id := "p1", name := "Tee", price := 1000, quantity := .int 2,
             variant := [("Size", "S")] }]) :=
  ⟨rfl, by decide,
    addToCart_appends "p1" "Tee" 1000 2 [("Size", "S")] (sampleWorld "page-product-detail"
      [("id", "p1")] (some (.json (.array [sampleItemM])))) [sampleItemM] rfl (by decide)⟩

/-- Instance of C3 (amended): an unset key, the text `null`, text that is not
JSON, and a stored array. -/
theorem getCart_cases_witness :
    getCart { cart := none } = .ok [] ∧
    getCart { cart := some (.json .null) } = .ok [] ∧
    getCart { cart := some (.unparsable "[1,") } = .error .SyntaxError ∧
    IntegerQuantities sampleCart ∧
    getCart { cart := some (.json (.array sampleCart)) } = .ok sampleCart :=
  ⟨(getCart_cases { cart := none }).1 rfl,
    (getCart_cases { cart := some (.json .null) }).2.1 rfl,
    (getCart_cases { cart := some (.unparsable "[1,") }).2.2.1 "[1," rfl,
    by decide,
    ((getCart_cases { cart := some (.json (.array sampleCart)) }).2.2.2 sampleCart rfl).2
      (by decide)⟩

/-- Instance of C9 (amended): three more of `p1` in size S on the sample cart. -/
theorem addToCart_count_witness :
    getCart (sampleWorld "page-product-detail" [("id", "p1")]
      (some (.json (.array sampleCart)))).localStorage = .ok sampleCart ∧
    IntegerQuantities sampleCart ∧
    quantityMass sampleCart + (3 : Int).natAbs < 2 ^ 53 ∧
    ∃ stored,
      (addToCart "p1" "Tee" 1000 3 [("Size", "S")] (sampleWorld "page-product-detail"
        [("id", "p1")] (some (.json (.array sampleCart))))).thrown = none ∧
      getCart (addToCart "p1" "Tee" 1000 3 [("Size", "S")] (sampleWorld "page-product-detail"
        [("id", "p1")] (some (.json (.array sampleCart))))).world.localStorage = .ok stored ∧
      (addToCart "p1" "Tee" 1000 3 [("Size", "S")] (sampleWorld "page-product-detail"
        [("id", "p1")] (some (.json (.array sampleCart))))).world.document.cartCount
        = (sampleWorld "page-product-detail" [("id", "p1")]
            (some (.json (.array sampleCart)))).document.cartCount.map
              (fun _ => toString (totalQuantity stored)) ∧
      totalQuantity stored = totalQuantity sampleCart + 3 :=
  ⟨rfl, by decide, by decide,
    addToCart_count "p1" "Tee" 1000 3 [("Size", "S")] (sampleWorld "page-product-detail"
      [("id", "p1")] (some (.json (.array sampleCart)))) sampleCart rfl (by decide)
      (by decide)⟩

/-- Instance of C10 (amended): one call on the well-formed sample cart, and two
calls followed by one more from the unset cart. -/
theorem addToCart_wellFormed_witness :
    (getCart (sampleWorld "page-product-detail" [("id", "p1")]
        (some (.json (.array sampleCart)))).localStorage = .ok sampleCart ∧
      WellFormed sampleCart ∧ (1 : Int) ≤ 3 ∧
      (∀ item ∈ sampleCart, Matches "p1" [("Size", "S")] item →
        item.quantity.value + 3 < overflowMagnitude) ∧
      ∃ stored,
        (addToCart "p1" "Tee" 1000 3 [("Size", "S")] (sampleWorld "page-product-detail"
          [("id", "p1")] (some (.json (.array sampleCart))))).thrown = none ∧
        getCart (addToCart "p1" "Tee" 1000 3 [("Size", "S")] (sampleWorld "page-product-detail"
          [("id", "p1")] (some (.json (.array sampleCart))))).world.localStorage = .ok stored ∧
        WellFormed stored ∧ sampleCart.length ≤ stored.length) ∧
    ((sampleWorld "page-product-detail" [("id", "p1")] none).localStorage.cart = none ∧
      Admissible ([AddCall.mk "p1" "Tee" 1000 1 [("Size", "S")],
                   AddCall.mk "p1" "Tee" 1000 1 [("Size", "M")]] ++
                  [AddCall.mk "p1" "Tee" 1000 2 [("Size", "S")]])
        (sampleWorld "page-product-detail" [("id", "p1")] none) ∧
      ∃ cart later,
        getCart (addCalls [AddCall.mk "p1" "Tee" 1000 1 [("Size", "S")],
                           AddCall.mk "p1" "Tee" 1000 1 [("Size", "M")]]
          (sampleWorld "page-product-detail" [("id", "p1")] none)).localStorage = .ok cart ∧
        WellFormed cart ∧
        getCart (addCalls ([AddCall.mk "p1" "Tee" 1000 1 [("Size", "S")],
                            AddCall.mk "p1" "Tee" 1000 1 [("Size", "M")]] ++
                           [AddCall.mk "p1" "Tee" 1000 2 [("Size", "S")]])
          (sampleWorld "page-product-detail" [("id", "p1")] none)).localStorage = .ok later ∧
        WellFormed later ∧ cart.length ≤ later.length) :=
  ⟨⟨rfl, by decide, by decide, by decide,
      addToCart_wellFormed.1 "p1" "Tee" 1000 3 [("Size", "S")] (sampleWorld
        "page-product-detail" [("id", "p1")] (some (.json (.array sampleCart)))) sampleCart rfl
        (by decide) (by decide) (by decide)⟩,
    ⟨rfl, by decide,
      addToCart_wellFormed.2 [AddCall.mk "p1" "Tee" 1000 1 [("Size", "S")],
          AddCall.mk "p1" "Tee" 1000 1 [("Size", "M")]]
        [AddCall.mk "p1" "Tee" 1000 2 [("Size", "S")]]
        (sampleWorld "page-product-detail" [("id", "p1")] none) rfl (by decide)⟩⟩

/-- Instance of C4 (amended): the cart page with the sample cart, whose total
is 3000. -/
theorem loadCartPage_total_witness :
    getCart (sampleWorld "page-cart" [] (some (.json (.array sampleCart)))).localStorage
      = .ok sampleCart ∧
    (sampleWorld "page-cart" [] (some (.json (.array sampleCart)))).document.getElementById
      "cart-items-container" = some "" ∧
    (sampleWorld "page-cart" [] (some (.json (.array sampleCart)))).document.getElementById
      "cart-summary" = some "" ∧
    sampleCart ≠ [] ∧ (∀ item ∈ sampleCart, ∃ p ∈ sampleCatalog, p.id = item.id) ∧
    IntegerQuantities sampleCart ∧ valueMass sampleCart < 2 ^ 53 ∧
    cartTotal sampleCart = 3000 ∧
    (loadCartPage sampleCatalog
      (sampleWorld "page-cart" [] (some (.json (.array sampleCart))))).thrown = none ∧
    (loadCartPage sampleCatalog (sampleWorld "page-cart" []
      (some (.json (.array sampleCart))))).world.document.getElementById "cart-summary"
      = some ("\n        <h2>총 주문 금액: " ++ toLocaleString (cartTotal sampleCart)
          ++ "원</h2>\n        <a href=\"checkout.html\" id=\"begin-checkout-btn\" class=\"btn\">주문하기</a>\n    ") ∧
    toLocaleString (cartTotal sampleCart) = "3,000" ∧
    (loadCartPage sampleCatalog (sampleWorld "page-cart" []
      (some (.json (.array sampleCart))))).world.console =
      (sampleWorld "page-cart" [] (some (.json (.array sampleCart)))).console ++
        [{ event := "view_cart",
           parameters := [("currency", .scalar (.str "KRW")),
                          ("value", .scalar (.num (.int (cartTotal sampleCart)))),
                          ("items", .items (viewCartItems sampleCart))] }] :=
  ⟨rfl, rfl, rfl, by decide, by decide, by decide, by decide, by decide,
    ((loadCartPage_total sampleCatalog
      (sampleWorld "page-cart" [] (some (.json (.array sampleCart)))) sampleCart "" ""
      rfl rfl rfl).1 (by decide) (by decide) (by decide) (by decide)).1,
    ((loadCartPage_total sampleCatalog
      (sampleWorld "page-cart" [] (some (.json (.array sampleCart)))) sampleCart "" ""
      rfl rfl rfl).1 (by decide) (by decide) (by decide) (by decide)).2.1,
    by decide,
    ((loadCartPage_total sampleCatalog
      (sampleWorld "page-cart" [] (some (.json (.array sampleCart)))) sampleCart "" ""
      rfl rfl rfl).1 (by decide) (by decide) (by decide) (by decide)).2.2.1⟩

/-- Instance of C5 (amended): with the catalog in which `p1` costs 1000, two
clicks on the add-to-cart button of `p1` store `p1` with quantity 2; the
checkout page then shows the item total 2000 and the payment total 5000. -/
theorem loadCheckoutPage_total_witness :
    getCart sampleCheckout.localStorage
      = .ok [{ id := "p1", name := "Tee", price := 1000, quantity := .int 2,
               variant := [("Size", "S")] }] ∧
    IntegerQuantities [sampleItemS] ∧ valueMass [sampleItemS] + 3000 < 2 ^ 53 ∧
    sampleCheckout.document.getElementById "order-summary" = some "<h2>주문 요약</h2>" ∧
    sampleCheckout.document.getElementById "shipping-form" = some "" ∧
    sampleCheckout.document.getElementById "payment-form" = some "" ∧
    sampleCheckout.document.getElementById "purchase-button" = some "결제하기" ∧
    (loadCheckoutPage sampleCheckout).thrown = none ∧
    (loadCheckoutPage sampleCheckout).world.document.getElementById "order-summary"
      = some ("<h2>주문 요약</h2>" ++ ("\n        <div class=\"order-summary-item\"><span>상품 금액</span><span>"
          ++ toLocaleString (cartTotal [sampleItemS])
          ++ "원</span></div>\n        <div class=\"order-summary-item\"><span>배송비</span><span>"
          ++ toLocaleString 3000
          ++ "원</span></div>\n        <div class=\"order-summary-item\" style=\"font-weight:bold;\"><span>총 결제 금액</span><span>"
          ++ toLocaleString (cartTotal [sampleItemS] + 3000) ++ "원</span></div>\n    ")) ∧
    cartTotal [sampleItemS] = 2000 ∧ cartTotal [sampleItemS] + 3000 = 5000 ∧
    toLocaleString (cartTotal [sampleItemS]) = "2,000" ∧
    toLocaleString (cartTotal [sampleItemS] + 3000) = "5,000" :=
  ⟨rfl, by decide, by decide, rfl, rfl, rfl, rfl,
    (loadCheckoutPage_total sampleCheckout [sampleItemS] "<h2>주문 요약</h2>" "" "" "결제하기"
      rfl (by decide) (by decide) rfl rfl rfl rfl).1,
    (loadCheckoutPage_total sampleCheckout [sampleItemS] "<h2>주문 요약</h2>" "" "" "결제하기"
      rfl (by decide) (by decide) rfl rfl rfl rfl).2.1,
    ((loadCheckoutPage_total sampleCheckout [sampleItemS] "<h2>주문 요약</h2>" "" "" "결제하기"
      rfl (by decide) (by decide) rfl rfl rfl rfl).2.2.2.2.2.2 sampleItemS rfl rfl rfl).1,
    ((loadCheckoutPage_total sampleCheckout [sampleItemS] "<h2>주문 요약</h2>" "" "" "결제하기"
      rfl (by decide) (by decide) rfl rfl rfl rfl).2.2.2.2.2.2 sampleItemS rfl rfl rfl).2,
    by decide, by decide⟩

/-- Instance of C6: the detail page without an `id` parameter, and the detail
page of `p1`. -/
theorem loadProductDetailPage_events_witness :
    (sampleWorld "page-product-detail" [] none).document.getElementById "product-detail-main"
      = some "..." ∧
    (∀ p ∈ sampleCatalog,
      some p.id ≠ (sampleWorld "page-product-detail" [] none).document.param "id") ∧
    (loadProductDetailPage sampleCatalog
      (sampleWorld "page-product-detail" [] none)).world.document.getElementById
      "product-detail-main" = some "<h1>상품을 찾을 수 없습니다.</h1>" ∧
    (loadProductDetailPage sampleCatalog
      (sampleWorld "page-product-detail" [] none)).world.console
      = (sampleWorld "page-product-detail" [] none).console ∧
    (∃ p ∈ sampleCatalog,
      some p.id = (sampleWorld "page-product-detail" [("id", "p1")] none).document.param "id") ∧
    ∃ product ∈ sampleCatalog,
      some product.id
        = (sampleWorld "page-product-detail" [("id", "p1")] none).document.param "id" ∧
      (loadProductDetailPage sampleCatalog
        (sampleWorld "page-product-detail" [("id", "p1")] none)).thrown = none ∧
      (loadProductDetailPage sampleCatalog
        (sampleWorld "page-product-detail" [("id", "p1")] none)).world.console =
        (sampleWorld "page-product-detail" [("id", "p1")] none).console ++
          [{ event := "view_item",
             parameters :=
              [("currency", .scalar (.str "KRW")),
               ("value", .scalar (.num (.int product.price))),
               ("items", .items [[("item_id", .str product.id),
                                  ("item_name", .str product.name),
                                  ("price", .num (.int product.price)),
                                  ("item_category", .str product.category)]])] }] ∧
      (loadProductDetailPage sampleCatalog
        (sampleWorld "page-product-detail" [("id", "p1")] none)).world.localStorage
        = (sampleWorld "page-product-detail" [("id", "p1")] none).localStorage :=
  ⟨rfl, by decide,
    ((loadProductDetailPage_events sampleCatalog (sampleWorld "page-product-detail" [] none)
      "..." rfl).1 (by decide)).2.1,
    ((loadProductDetailPage_events sampleCatalog (sampleWorld "page-product-detail" [] none)
      "..." rfl).1 (by decide)).2.2.1,
    ⟨sampleProduct, by decide, rfl⟩,
    (loadProductDetailPage_events sampleCatalog
      (sampleWorld "page-product-detail" [("id", "p1")] none) "..." rfl).2
      ⟨sampleProduct, by decide, rfl⟩⟩

/-- Instance of C7: the purchase click on the sample checkout page, followed by
the load of the confirmation page. -/
theorem purchase_clears_cart_witness :
    getCart sampleCheckout.localStorage = .ok [sampleItemS] ∧
    sampleCheckout.document.getElementById "order-summary" = some "<h2>주문 요약</h2>" ∧
    sampleCheckout.document.getElementById "shipping-form" = some "" ∧
    sampleCheckout.document.getElementById "payment-form" = some "" ∧
    sampleCheckout.document.getElementById "purchase-button" = some "결제하기" ∧
    ((Listener.purchase (totalValueOf [sampleItemS]) (.int 3000) [sampleItemS]).run sampleInput
      (loadCheckoutPage sampleCheckout).world).world.localStorage.cart = none ∧
    (onDOMContentLoaded (.ok sampleCatalog)
      (sampleWorld "page-confirmation" [("tid", "T-1700000000000")] none)
      ).world.document.cartCount
      = (sampleWorld "page-confirmation" [("tid", "T-1700000000000")]
          none).document.cartCount.map (fun _ => "0") :=
  ⟨rfl, rfl, rfl, rfl, rfl,
    ((purchase_clears_cart sampleCheckout [sampleItemS] "<h2>주문 요약</h2>" "" "" "결제하기"
      rfl rfl rfl rfl rfl).2.2 sampleInput (loadCheckoutPage sampleCheckout).world).2.1,
    (((purchase_clears_cart sampleCheckout [sampleItemS] "<h2>주문 요약</h2>" "" "" "결제하기"
      rfl rfl rfl rfl rfl).2.2 sampleInput (loadCheckoutPage sampleCheckout).world).2.2.2
      (sampleWorld "page-confirmation" [("tid", "T-1700000000000")] none) (.ok sampleCatalog)
      rfl).2.2.2.2⟩

/-- Instance of C8 (amended): the sample checkout page rendered once and
twice. -/
theorem rendering_twice_witness :
    getCart sampleCheckout.localStorage = .ok [sampleItemS] ∧
    sampleCheckout.document.getElementById "order-summary" = some "<h2>주문 요약</h2>" ∧
    (loadCheckoutPage sampleCheckout).world.document.getElementById "order-summary"
      = some ("<h2>주문 요약</h2>" ++ orderSummaryHtml (totalValueOf [sampleItemS]) (.int 3000)) ∧
    (loadCheckoutPage (loadCheckoutPage sampleCheckout).world).world.document.getElementById
      "order-summary"
      = some ("<h2>주문 요약</h2>" ++ orderSummaryHtml (totalValueOf [sampleItemS]) (.int 3000)
          ++ orderSummaryHtml (totalValueOf [sampleItemS]) (.int 3000)) :=
  ⟨rfl, rfl,
    rendering_twice.2.2.2.2.2.2 sampleCheckout [sampleItemS] "<h2>주문 요약</h2>" rfl rfl⟩
end GA4Shop
